import Mathlib

/-!
A verification development for the conversation/tool-orchestration core of
the SDG chatbot backend (`backend/sdg_main.py`): token counting, history
management under a token budget, query-intent analysis, function dispatch,
tool-result sanitization, and the chatbot turn state machine.

The sub-word encoder obtained from tiktoken is an external library; it is
modelled throughout as a function `enc : String → Nat` giving the token
length `len(enc.encode(s))` of a string.  Database-backed collaborators
(`get_sdg_goal_data`, `extract_district_name_from_query`, the OpenAI client,
...) are modelled as oracle parameters, exactly at their declared call
boundaries.  Everything else is translated directly from the Python source.
-/

namespace SdgMain

/-- One conversation message, as the plain dicts stored in the session
history: the `role` and `content` keys plus the optional `name` and
`tool_call_id` keys. -/
structure Message where
  role : String
  content : String
  name : Option String
  tool_call_id : Option String
deriving DecidableEq, Repr

/-- `MAX_TOKENS = 128000` (sdg_main.py line 101). -/
def MAX_TOKENS : Int := 128000

/-- `SAFE_TOKEN_LIMIT = int(MAX_TOKENS * 0.4)` (line 102), i.e. 51200. -/
def SAFE_TOKEN_LIMIT : Int := 51200

/-- Token cost of one message (`count_tokens`, lines 113-119): 4 framing
tokens, plus the encoded length of every field value present, minus 1 when a
`name` field is present. -/
def messageTokens (enc : String → Nat) (m : Message) : Int :=
  4 + (enc m.role : Int) + (enc m.content : Int)
    + (match m.name with
       | some s => (enc s : Int) - 1
       | none => 0)
    + (match m.tool_call_id with
       | some s => (enc s : Int)
       | none => 0)

/-- Sum of per-message token costs over a message list. -/
def sumTokens (enc : String → Nat) : List Message → Int
  | [] => 0
  | m :: t => messageTokens enc m + sumTokens enc t

/-- `count_tokens(messages, model)` (lines 104-121): per-message costs plus
the 2 reply-priming tokens, with the tiktoken encoder abstracted as `enc`. -/
def count_tokens (enc : String → Nat) (messages : List Message) : Int :=
  sumTokens enc messages + 2

/-- `SYSTEM_MESSAGE` (lines 38-99), with its full content string. -/
def SYSTEM_MESSAGE : Message :=
  ⟨"system", "You are an advanced SDG (Sustainable Development Goals) Analysis Assistant for India, specializing in district-level performance data from NFHS-4 (2016) and NFHS-5 (2021) surveys.\n\n**CORE CAPABILITIES:**\n1. **SDG Performance Analysis**: Analyze 17 SDG goals across 640+ Indian districts\n2. **District Comparisons**: Compare top/bottom performers, trends, and classifications  \n3. **Individual District Insights**: Comprehensive profiles for specific districts\n4. **Neighboring Districts Analysis**: Compare districts with their spatial neighbors using geographic proximity\n5. **State-wise Aggregations**: Compare state-level SDG performance and trends\n6. **Time Series Analysis**: Track 2016-2021 changes and improvement patterns\n7. **Aspirational District Tracking**: Monitor India\x27s 115 aspirational districts program\n8. **Cross-SDG Analysis**: Examine correlations and synergies between different goals\n9. **Classification Systems**: SDG status (Achieved-I, Achieved-II, On-Target and Off-Target) and performance categories\n\n**WORKFLOW GUIDELINES:**\n\n**For SDG Goal Queries:**\n- SDG Goals 8 & 17: Use get_sdg_goal_data() directly (only 1 indicator each)\n- Other goals: First call get_indicators_by_sdg_goal() to show available indicators, then get_sdg_goal_data()\n- Use appropriate query_type: individual, top_performers, bottom_performers, trend\n\n**For District-Specific Queries:**\n- Use get_individual_district_sdg_data() for specific district analysis\n- Automatically handles fuzzy district name matching\n- Provides comprehensive NFHS-4/NFHS-5 comparison with trends\n\n**For Classification/Mapping:**\n- Use get_sdg_goal_classification() for district classification visualization\n- Returns all indicators with dropdown selection capability\n- Includes boundary data for map visualization\n\n**For Advanced Analysis:**\n- get_state_wise_summary(): State-level aggregations and comparisons\n- get_time_series_comparison(): NFHS-4 to NFHS-5 trend analysis  \n- get_aspirational_district_tracking(): Aspirational districts performance monitoring\n- get_cross_sdg_analysis(): Multi-goal correlations and synergies\n- get_neighboring_districts_comparison(): Compare districts with their spatial neighbors\n\n**RESPONSE STRATEGY:**\n1. **Understanding**: Analyze user intent (performance ranking, specific district, trends, classifications)\n2. **Function Selection**: Choose appropriate function based on query type and scope\n3. **Data Analysis**: Process results with focus on key insights and trends\n4. **Interpretation**: Provide context on improvement directions, annual changes, and policy relevance\n5. **Visualization**: Highlight map-worthy data and classification insights\n\n**KEY PRINCIPLES:**\n- Always interpret annual change values considering indicator direction (higher/lower is better)\n- Provide policy-relevant insights for development planning\n- Highlight aspirational district status when relevant  \n- Explain data trends and their significance for SDG achievement\n- Support both technical analysis and accessible explanations\n\n**DATA CONTEXT:**\n- 640+ districts across all Indian states\n- 17 SDG goals with multiple indicators each\n- NFHS-4 (2016) baseline vs NFHS-5 (2021) comparison\n- Annual change calculations with direction-aware interpretation\n- Aspirational district program tracking for targeted development\n\nYou excel at transforming complex SDG data into actionable insights for policy makers, researchers, and development practitioners.", none, none⟩

/-- Step 1 of `manage_conversation_history` (lines 128-130): prepend the
canonical system message when the history is empty or does not start with
one. -/
def ensure_system_message (history : List Message) : List Message :=
  match history with
  | [] => [SYSTEM_MESSAGE]
  | h :: t => if h.role ≠ "system" then SYSTEM_MESSAGE :: h :: t else h :: t

/-- `history.pop(1)`: remove the message at index 1 when it exists. -/
def pop1 : List Message → List Message
  | a :: _ :: t => a :: t
  | l => l

/-- The eviction loop of lines 136-137, written with explicit fuel: each
iteration removes index 1 while the token count exceeds the limit and more
than 3 messages remain.  `history.length` is always enough fuel (the loop
performs at most `length - 3` iterations, see `evictFuel_post`). -/
def evictFuel (enc : String → Nat) : Nat → List Message → List Message
  | 0, h => h
  | fuel + 1, h =>
    if count_tokens enc h > SAFE_TOKEN_LIMIT ∧ 3 < h.length then
      evictFuel enc fuel (pop1 h)
    else h

/-- The eviction loop (`while count_tokens(...) > SAFE_TOKEN_LIMIT and
len(history) > 3: history.pop(1)`). -/
def evictLoop (enc : String → Nat) (h : List Message) : List Message :=
  evictFuel enc h.length h

/-- Number of iterations performed by the eviction loop, fuelled version. -/
def evictItersFuel (enc : String → Nat) : Nat → List Message → Nat
  | 0, _ => 0
  | fuel + 1, h =>
    if count_tokens enc h > SAFE_TOKEN_LIMIT ∧ 3 < h.length then
      evictItersFuel enc fuel (pop1 h) + 1
    else 0

/-- Number of iterations performed by the eviction loop. -/
def evictIters (enc : String → Nat) (h : List Message) : Nat :=
  evictItersFuel enc h.length h

/-- The escalated eviction of lines 139-141: `[history[0]] + history[-2:]`. -/
def escalate (h : List Message) : List Message :=
  h.take 1 ++ h.drop (h.length - 2)

/-- The defensive truncation of lines 143-147: rewrite the content of the
last message to its first 800 characters plus a marker when it exceeds 1000
characters. -/
def truncate_last : List Message → List Message
  | [] => []
  | a :: t =>
    let last := (a :: t).getLast (by simp)
    if last.content.length > 1000 then
      (a :: t).dropLast ++
        [⟨last.role, last.content.take 800 ++ "... [Message truncated]",
          last.name, last.tool_call_id⟩]
    else a :: t

/-- `manage_conversation_history(history, new_message, model)`
(lines 123-149). -/
def manage_conversation_history (enc : String → Nat) (history : List Message)
    (new_message : Message) : List Message :=
  let h1 := ensure_system_message history
  let h2 := h1 ++ [new_message]
  let h3 := evictLoop enc h2
  let h4 :=
    if count_tokens enc h3 > SAFE_TOKEN_LIMIT ∧ 3 < h3.length then
      escalate h3
    else h3
  if count_tokens enc h4 > SAFE_TOKEN_LIMIT ∧ 1 < h4.length then
    truncate_last h4
  else h4

/-- `manage_conversation_history` with the escalated-eviction branch of
lines 139-141 removed (used to state that that branch is dead code). -/
def manage_conversation_history_no_escalation (enc : String → Nat)
    (history : List Message) (new_message : Message) : List Message :=
  let h1 := ensure_system_message history
  let h2 := h1 ++ [new_message]
  let h3 := evictLoop enc h2
  if count_tokens enc h3 > SAFE_TOKEN_LIMIT ∧ 1 < h3.length then
    truncate_last h3
  else h3

/-- A concrete synthetic encoder for eviction-order scenarios: any 5-character
string costs 20000 tokens, anything else 1. -/
def encC3 : String → Nat := fun s => if s.length = 5 then 20000 else 1

/-- A small synthetic system message. -/
def sysM : Message := ⟨"system", "s", none, none⟩

/-- Synthetic user messages `msg_1`, `msg_2`, ... (5-character contents). -/
def mC3 (i : Nat) : Message := ⟨"user", "msg_" ++ toString i, none, none⟩

/-! ### Python string primitives (character-list model of `str`) -/

/-- Python regex `\s` on ASCII: space, tab, newline, carriage return,
vertical tab, form feed. -/
def pyIsSpace (c : Char) : Bool :=
  (c = ' ') || (c = '\t') || (c = '\n') || (c = '\r') || (c = '\x0b') ||
    (c = '\x0c')

/-- Python regex `\d` on ASCII digits. -/
def pyIsDigit (c : Char) : Bool := '0' ≤ c && c ≤ '9'

/-- `str.lower()` on one ASCII character. -/
def pyCharLower (c : Char) : Char :=
  if 'A' ≤ c && c ≤ 'Z' then Char.ofNat (c.toNat + 32) else c

/-- `str.upper()` on one ASCII character. -/
def pyCharUpper (c : Char) : Char :=
  if 'a' ≤ c && c ≤ 'z' then Char.ofNat (c.toNat - 32) else c

/-- `str.isalpha()` on ASCII. -/
def pyIsAlpha (c : Char) : Bool :=
  ('a' ≤ c && c ≤ 'z') || ('A' ≤ c && c ≤ 'Z')

/-- `user_query.lower()` as a character list. -/
def pyLower (s : String) : List Char := s.data.map pyCharLower

/-- Helper for `str.title()`: the Bool tracks whether the previous character
was alphabetic. -/
def pyTitleAux : List Char → Bool → List Char
  | [], _ => []
  | c :: t, prevAlpha =>
    (if pyIsAlpha c then
      (if prevAlpha then pyCharLower c else pyCharUpper c)
     else c) :: pyTitleAux t (pyIsAlpha c)

/-- Python `str.title()` (used for state-name normalization at line 313). -/
def pyTitle (s : String) : String := ⟨pyTitleAux s.data false⟩

/-- Boolean prefix test on character lists. -/
def isPrefixOfC : List Char → List Char → Bool
  | [], _ => true
  | _ :: _, [] => false
  | c :: cs, d :: ds => c = d && isPrefixOfC cs ds

/-- Index of the first occurrence of `sep` in a string (the search underlying
Python `in`, `str.find` and `str.split`). -/
def findIdxC (sep : List Char) : List Char → Option Nat
  | [] => if isPrefixOfC sep [] then some 0 else none
  | c :: t =>
    if isPrefixOfC sep (c :: t) then some 0
    else (findIdxC sep t).map (· + 1)

/-- Python `sep in s`. -/
def containsSubC (sep s : List Char) : Bool := (findIdxC sep s).isSome

/-- Python `s.split(sep, 1)`: the part before the first occurrence and,
when `sep` occurs, the part after it. -/
def splitOnceC (sep s : List Char) : List Char × Option (List Char) :=
  match findIdxC sep s with
  | none => (s, none)
  | some i => (s.take i, some (s.drop (i + sep.length)))

/-- `sep` has no nontrivial border (no proper nonempty prefix that is also a
suffix); rules out occurrences of `sep` straddling a known occurrence. -/
def noBorderC (sep : List Char) : Prop :=
  ∀ m, m < sep.length → 0 < m → sep.drop m ≠ sep.take (sep.length - m)

instance (sep : List Char) : Decidable (noBorderC sep) := by
  unfold noBorderC
  infer_instance

/-- Numeric value of a digit character. -/
def digitVal (c : Char) : Int := (c.toNat : Int) - 48

/-- `int()` of a nonempty digit string. -/
def digitsToInt (ds : List Char) : Int :=
  ds.foldl (fun a c => a * 10 + digitVal c) 0

/-! ### The numeric patterns of `analyze_sdg_query_intent` (lines 176-194) -/

/-- One of the `number_patterns`: either `lit\s+(\d+)` or `(\d+)\s+lit`. -/
inductive NumPat where
  | litNum (lit : List Char)
  | numLit (lit : List Char)

/-- Match a numeric pattern anchored at the current position.  The regexes
involved have the shape literal/whitespace-run/digit-run with disjoint
character classes at every joint, so greedy maximal-munch agrees with the
backtracking regex engine. -/
def matchNumPatAt : NumPat → List Char → Option Int
  | .litNum lit, s =>
    if isPrefixOfC lit s then
      let r1 := s.drop lit.length
      let sp := r1.takeWhile pyIsSpace
      if sp.isEmpty then none
      else
        let ds := (r1.drop sp.length).takeWhile pyIsDigit
        if ds.isEmpty then none else some (digitsToInt ds)
    else none
  | .numLit lit, s =>
    let ds := s.takeWhile pyIsDigit
    if ds.isEmpty then none
    else
      let r1 := s.drop ds.length
      let sp := r1.takeWhile pyIsSpace
      if sp.isEmpty then none
      else if isPrefixOfC lit (r1.drop sp.length) then some (digitsToInt ds)
      else none

/-- `re.search` for one numeric pattern: leftmost matching position wins. -/
def searchNumPat (p : NumPat) : List Char → Option Int
  | [] => matchNumPatAt p []
  | c :: t =>
    match matchNumPatAt p (c :: t) with
    | some n => some n
    | none => searchNumPat p t

/-- The ordered `number_patterns` list of lines 177-180. -/
def number_patterns : List NumPat :=
  [.litNum "top".data, .litNum "bottom".data, .numLit "best".data,
   .numLit "worst".data, .numLit "districts".data, .litNum "show".data,
   .litNum "list".data, .litNum "first".data]

/-- First pattern (in list order) with a match anywhere in the text wins
(lines 182-187). -/
def firstNumMatch : List NumPat → List Char → Option Int
  | [], _ => none
  | p :: ps, q =>
    match searchNumPat p q with
    | some n => some n
    | none => firstNumMatch ps q

/-- `any(word in query_lower for word in ws)`. -/
def containsAny (ws : List String) (q : List Char) : Bool :=
  ws.any (fun w => containsSubC w.data q)

/-! ### `analyze_sdg_query_intent` (lines 151-244) -/

/-- The result dictionary of `analyze_sdg_query_intent`. -/
structure QueryIntent where
  query_type : String
  top_n : Int
  state_name : Option String
  has_specific_district : Bool
  detected_district : Option String
  is_best_worst_query : Bool
  has_district_pattern : Bool
deriving DecidableEq, Repr

/-- `ranking_keywords["top"]` (line 159). -/
def ranking_keywords_top : List String :=
  ["top", "best", "highest", "leading", "superior", "good", "better",
   "performing well"]

/-- `ranking_keywords["bottom"]` (line 160). -/
def ranking_keywords_bottom : List String :=
  ["bottom", "worst", "lowest", "poorest", "lagging", "bad", "worse",
   "performing poorly"]

/-- `ranking_keywords["both"]` (line 161). -/
def ranking_keywords_both : List String :=
  ["compare", "comparison", "trend", "both", "top and bottom", "versus",
   "vs"]

/-- `district_keywords` (line 169). -/
def district_keywords : List String :=
  ["district", "city", "area", "region", "place", "in ", "of ", "for "]

/-- The best/worst-performing phrases of line 173. -/
def best_worst_keywords : List String :=
  ["best performing", "worst performing", "top performing",
   "bottom performing", "best district", "worst district"]

/-- The generic listing words of line 213. -/
def generic_list_keywords : List String :=
  ["districts", "list", "ranking", "performance", "status"]

/-- The default-count words of line 191. -/
def many_all_list_keywords : List String := ["many", "all", "list"]

/-- The best-side words of line 203. -/
def best_side_keywords : List String := ["best", "top", "highest", "leading"]

/-- `state_keywords` (lines 217-228), in insertion order. -/
def state_keywords : List (String × List String) :=
  [("rajasthan", ["rajasthan"]),
   ("gujarat", ["gujarat"]),
   ("maharashtra", ["maharashtra"]),
   ("karnataka", ["karnataka"]),
   ("tamil nadu", ["tamil nadu", "tamilnadu"]),
   ("kerala", ["kerala"]),
   ("west bengal", ["west bengal", "bengal"]),
   ("uttar pradesh", ["uttar pradesh", "up"]),
   ("bihar", ["bihar"]),
   ("odisha", ["odisha", "orissa"])]

/-- First state (in insertion order) one of whose keywords occurs in the
lowercased query (lines 230-234). -/
def detectState : List (String × List String) → List Char → Option String
  | [], _ => none
  | (st, kws) :: rest, q =>
    if kws.any (fun k => containsSubC k.data q) then some st
    else detectState rest q

/-- `analyze_sdg_query_intent(user_query)` (lines 151-244).  The fuzzy
district lookup `extract_district_name_from_query` consults the database and
is passed as the oracle `extract_district`. -/
def analyze_sdg_query_intent (extract_district : String → Option String)
    (user_query : String) : QueryIntent :=
  let query_lower := pyLower user_query
  let detected_district := extract_district user_query
  let has_specific_district := detected_district.isSome
  let has_district_pattern := containsAny district_keywords query_lower
  let is_best_worst_query := containsAny best_worst_keywords query_lower
  let top_n : Int :=
    match firstNumMatch number_patterns query_lower with
    | some n => n
    | none =>
      if containsAny many_all_list_keywords query_lower then 10 else 5
  let query_type : String :=
    if has_specific_district && !is_best_worst_query then
      "individual_district"
    else if is_best_worst_query then
      (if containsAny best_side_keywords query_lower then "best_district"
       else "worst_district")
    else if containsAny ranking_keywords_both query_lower then "trend"
    else if containsAny ranking_keywords_bottom query_lower then
      "bottom_performers"
    else if containsAny ranking_keywords_top query_lower then
      "top_performers"
    else if containsAny generic_list_keywords query_lower then
      "top_performers"
    else "top_performers"
  let detected_state := detectState state_keywords query_lower
  ⟨query_type, top_n, detected_state, has_specific_district,
    detected_district, is_best_worst_query, has_district_pattern⟩

/-! ### JSON values (`ToolResult` dictionaries, parsed tool arguments) -/

/-- JSON-shaped Python values: the dictionaries collaborator functions return
and the parsed tool-call argument objects.  Numbers are modelled as
integers. -/
inductive JValue where
  | null
  | bool (b : Bool)
  | num (n : Int)
  | str (s : String)
  | arr (xs : List JValue)
  | obj (fields : List (String × JValue))
deriving Repr

/-- Ordered-dictionary lookup. -/
def jLookup (k : String) : List (String × JValue) → Option JValue
  | [] => none
  | (k', v) :: t => if k' = k then some v else jLookup k t

/-- `key in dict`. -/
def hasKeyC (k : String) (fields : List (String × JValue)) : Bool :=
  (jLookup k fields).isSome

/-- `dict.pop(key, None)`: remove the entry for `k`. -/
def removeKey (k : String) : List (String × JValue) → List (String × JValue)
  | [] => []
  | (k', v) :: t =>
    if k' = k then removeKey k t else (k', v) :: removeKey k t

/-- `dict[key] = v`: update the first entry in place when present, else
append at the end (Python dict insertion-order semantics). -/
def setKey (k : String) (v : JValue) :
    List (String × JValue) → List (String × JValue)
  | [] => [(k, v)]
  | (k0, v0) :: t => if k0 = k then (k, v) :: t else (k0, v0) :: setKey k v t

/-- Python truthiness on JSON-shaped values. -/
def jTruthy : JValue → Bool
  | .null => false
  | .bool b => b
  | .num n => decide (n ≠ 0)
  | .str s => !s.isEmpty
  | .arr xs => !xs.isEmpty
  | .obj fs => !fs.isEmpty

/-- The characters `{`, `}` and `'`. -/
def lbraceC : Char := Char.ofNat 123

def rbraceC : Char := Char.ofNat 125

def squoteC : Char := Char.ofNat 39

/-- Lowercase hex digit. -/
def hexDigitChar (n : Nat) : Char :=
  if n < 10 then Char.ofNat (48 + n) else Char.ofNat (87 + n)

def hex4 (n : Nat) : List Char :=
  [hexDigitChar (n / 4096 % 16), hexDigitChar (n / 256 % 16),
   hexDigitChar (n / 16 % 16), hexDigitChar (n % 16)]

/-- `json.dumps` escaping of one character (`ensure_ascii=True`): quote,
backslash and control shorthands, `\uXXXX` (with surrogate pairs) for other
characters outside printable ASCII. -/
def escChar (c : Char) : List Char :=
  if c = '"' then ['\\', '"']
  else if c = '\\' then ['\\', '\\']
  else if c = '\n' then ['\\', 'n']
  else if c = '\r' then ['\\', 'r']
  else if c = '\t' then ['\\', 't']
  else if c = '\x08' then ['\\', 'b']
  else if c = '\x0c' then ['\\', 'f']
  else if c.toNat < 32 || c.toNat > 126 then
    if c.toNat < 65536 then '\\' :: 'u' :: hex4 c.toNat
    else
      ('\\' :: 'u' :: hex4 (55296 + (c.toNat - 65536) / 1024)) ++
        ('\\' :: 'u' :: hex4 (56320 + (c.toNat - 65536) % 1024))
  else [c]

def escapeC : List Char → List Char
  | [] => []
  | c :: t => escChar c ++ escapeC t

mutual
/-- `json.dumps(v, default=str)` with the default separators `", "` and
`": "` (the serialization used at lines 1130-1132). -/
def jdumpC : JValue → List Char
  | .null => "null".data
  | .bool true => "true".data
  | .bool false => "false".data
  | .num n => (toString n).data
  | .str s => '"' :: (escapeC s.data ++ ['"'])
  | .arr xs => '[' :: (jdumpArrC xs ++ [']'])
  | .obj fs => lbraceC :: (jdumpObjC fs ++ [rbraceC])

def jdumpArrC : List JValue → List Char
  | [] => []
  | [x] => jdumpC x
  | x :: y :: t => jdumpC x ++ (',' :: ' ' :: jdumpArrC (y :: t))

def jdumpObjC : List (String × JValue) → List Char
  | [] => []
  | [(k, v)] => jdumpC (.str k) ++ (':' :: ' ' :: jdumpC v)
  | (k, v) :: f :: t =>
    jdumpC (.str k) ++
      (':' :: ' ' :: (jdumpC v ++ (',' :: ' ' :: jdumpObjC (f :: t))))
end

mutual
/-- Python `repr` of a JSON-shaped value (single-quoted strings; the
escaping `repr` applies inside string atoms is elided — the claims only
exercise it on quote-free text). -/
def pyReprC : JValue → List Char
  | .null => "None".data
  | .bool true => "True".data
  | .bool false => "False".data
  | .num n => (toString n).data
  | .str s => squoteC :: (s.data ++ [squoteC])
  | .arr xs => '[' :: (pyReprArrC xs ++ [']'])
  | .obj fs => lbraceC :: (pyReprObjC fs ++ [rbraceC])

def pyReprArrC : List JValue → List Char
  | [] => []
  | [x] => pyReprC x
  | x :: y :: t => pyReprC x ++ (',' :: ' ' :: pyReprArrC (y :: t))

def pyReprObjC : List (String × JValue) → List Char
  | [] => []
  | [(k, v)] => pyReprC (.str k) ++ (':' :: ' ' :: pyReprC v)
  | (k, v) :: f :: t =>
    pyReprC (.str k) ++
      (':' :: ' ' :: (pyReprC v ++ (',' :: ' ' :: pyReprObjC (f :: t))))
end

/-- Python `str()` of a JSON-shaped value, as used by f-string
interpolation (`f"ENHANCED_ANALYSIS: {enhanced_analysis}"`). -/
def pyStrC : JValue → List Char
  | .str s => s.data
  | .num n => (toString n).data
  | .bool true => "True".data
  | .bool false => "False".data
  | .null => "None".data
  | .arr xs => pyReprC (.arr xs)
  | .obj fs => pyReprC (.obj fs)

/-! ### Python exceptions surfacing from argument access -/

/-- Exceptions that argument access / result cleaning can raise inside the
turn (all are caught by the endpoint's generic `except Exception`). -/
inductive PyExc where
  | keyError (k : String)
  | attributeError
  | typeError
deriving DecidableEq, Repr

/-- `arguments.get(k)` (no default): `AttributeError` when `arguments` is not
a dict, else the value or `None`-as-absent. -/
def jGetOpt (args : JValue) (k : String) : Except PyExc (Option JValue) :=
  match args with
  | .obj f => .ok (jLookup k f)
  | _ => .error .attributeError

/-- `arguments.get(k, default)`. -/
def jGetD (args : JValue) (k : String) (d : JValue) : Except PyExc JValue :=
  match args with
  | .obj f => .ok ((jLookup k f).getD d)
  | _ => .error .attributeError

/-- `arguments[k]`: `KeyError` when missing, `TypeError` when `arguments` is
not a dict. -/
def jIndex (args : JValue) (k : String) : Except PyExc JValue :=
  match args with
  | .obj f =>
    match jLookup k f with
    | some v => .ok v
    | none => .error (.keyError k)
  | _ => .error .typeError

/-- `f(**arguments)` requires a mapping. -/
def splatKwargs (args : JValue) : Except PyExc JValue :=
  match args with
  | .obj _ => .ok args
  | _ => .error .typeError

/-! ### `execute_function_call` (lines 300-457) -/

/-- The keyword arguments of the `get_sdg_goal_data` collaborator call at
lines 321-330, in source order. -/
structure GoalDataParams where
  sdg_goal_number : JValue
  indicator_names : JValue
  year : JValue
  query_type : JValue
  top_n : JValue
  district_name : JValue
  state_name : JValue
  include_labels : JValue
deriving Repr

/-- The collaborator functions imported from `sdg_utils` (database-backed
analystics; external to the orchestration core), one oracle per catalog
entry, typed at the exact call boundary used in `execute_function_call`.
The `**arguments` splat calls receive the raw argument mapping. -/
structure Collabs where
  get_sdg_goal_data : GoalDataParams → JValue
  get_indicators_by_sdg_goal : JValue → JValue
  get_sdg_goal_classification : JValue → JValue → JValue → JValue → JValue → JValue
  get_individual_district_sdg_data : JValue → JValue → JValue → JValue → JValue → JValue
  get_district_indicator_selection_prompt : JValue → JValue → JValue
  get_best_worst_district_for_indicator : JValue → JValue → JValue → JValue → JValue → JValue
  get_aac_classification : JValue → JValue → JValue → JValue → JValue → JValue
  get_state_wise_summary : JValue → JValue
  get_time_series_comparison : JValue → JValue
  get_aspirational_district_tracking : JValue → JValue
  get_cross_sdg_analysis : JValue → JValue
  get_neighboring_districts_comparison : JValue → JValue
  get_state_wise_indicator_extremes : JValue → JValue
  get_most_least_improved_districts : JValue → JValue → JValue → JValue → JValue → JValue
  get_border_districts : JValue → JValue → JValue → JValue → JValue → JValue → JValue
  get_districts_within_radius : JValue → JValue → JValue → JValue → JValue → JValue → JValue

/-- Parameter resolution for the primary ranking function
`get_sdg_goal_data` (lines 302-330): merge LLM-supplied arguments with the
intent-analyzer fallback field by field, then title-case a truthy state
name. -/
def resolveGoalDataParams (extract_district : String → Option String)
    (user_input : String) (arguments : JValue) :
    Except PyExc GoalDataParams := do
  let query_intent := analyze_sdg_query_intent extract_district user_input
  let final_query_type ←
    jGetD arguments "query_type" (.str query_intent.query_type)
  let final_top_n ← jGetD arguments "top_n" (.num query_intent.top_n)
  let state_raw ← jGetOpt arguments "state_name"
  let intent_state : JValue :=
    match query_intent.state_name with
    | some s => .str s
    | none => .null
  let merged_state : JValue :=
    match state_raw with
    | some v => if jTruthy v then v else intent_state
    | none => intent_state
  let final_state_name ←
    if jTruthy merged_state then
      match merged_state with
      | .str s => Except.ok (JValue.str (pyTitle s))
      | _ => Except.error PyExc.attributeError
    else Except.ok merged_state
  let sdg ← jGetD arguments "sdg_goal_number" .null
  let ind ← jGetD arguments "indicator_names" .null
  let yr ← jGetD arguments "year" (.num 2021)
  let dn ← jGetD arguments "district_name" .null
  let il ← jGetD arguments "include_labels" (.bool true)
  pure ⟨sdg, ind, yr, final_query_type, final_top_n, dn, final_state_name,
    il⟩

/-- The names handled by the dispatch chain of `execute_function_call`. -/
def known_function_names : List String :=
  ["get_sdg_goal_data", "get_indicators_by_sdg_goal",
   "get_sdg_goal_classification", "get_individual_district_sdg_data",
   "get_district_indicator_selection_prompt",
   "get_best_worst_district_for_indicator", "get_aac_classification",
   "get_state_wise_summary", "get_time_series_comparison",
   "get_aspirational_district_tracking", "get_cross_sdg_analysis",
   "get_neighboring_districts_comparison",
   "get_state_wise_indicator_extremes",
   "get_most_least_improved_districts", "get_border_districts",
   "get_districts_within_radius"]

/-- `execute_function_call(function_name, arguments)` (lines 300-457):
dispatch an LLM-selected tool name to the collaborator call, with the
argument extraction performed by each branch. -/
def execute_function_call (c : Collabs)
    (extract_district : String → Option String) (user_input : String)
    (function_name : String) (arguments : JValue) :
    Except PyExc JValue :=
  if function_name = "get_sdg_goal_data" then do
    let p ← resolveGoalDataParams extract_district user_input arguments
    pure (c.get_sdg_goal_data p)
  else if function_name = "get_indicators_by_sdg_goal" then do
    let sdg ← jIndex arguments "sdg_goal_number"
    pure (c.get_indicators_by_sdg_goal sdg)
  else if function_name = "get_sdg_goal_classification" then do
    let sdg ← jIndex arguments "sdg_goal_number"
    let yr ← jGetD arguments "year" (.num 2021)
    let st ← jGetD arguments "state_name" .null
    let ct ← jGetD arguments "classification_type" (.str "status")
    let di ← jGetD arguments "default_indicator" .null
    pure (c.get_sdg_goal_classification sdg yr st ct di)
  else if function_name = "get_individual_district_sdg_data" then do
    let dn ← jIndex arguments "district_name"
    let sdg ← jGetD arguments "sdg_goal_number" .null
    let ind ← jGetD arguments "indicator_names" .null
    let yr ← jGetD arguments "year" (.num 2021)
    let st ← jGetD arguments "state_name" .null
    pure (c.get_individual_district_sdg_data dn sdg ind yr st)
  else if function_name = "get_district_indicator_selection_prompt" then do
    let dn ← jIndex arguments "district_name"
    let sdg ← jIndex arguments "sdg_goal_number"
    pure (c.get_district_indicator_selection_prompt dn sdg)
  else if function_name = "get_best_worst_district_for_indicator" then do
    let sdg ← jGetD arguments "sdg_goal_number" .null
    let ind ← jGetD arguments "indicator_name" .null
    let qt ← jGetD arguments "query_type" (.str "best")
    let yr ← jGetD arguments "year" (.num 2021)
    let st ← jGetD arguments "state_name" .null
    pure (c.get_best_worst_district_for_indicator sdg ind qt yr st)
  else if function_name = "get_aac_classification" then do
    let sdg ← jIndex arguments "sdg_goal_number"
    let yr ← jGetD arguments "year" (.num 2021)
    let st ← jGetD arguments "state_name" .null
    let cm ← jGetD arguments "classification_method" (.str "quantile")
    let di ← jGetD arguments "default_indicator" .null
    pure (c.get_aac_classification sdg yr st cm di)
  else if function_name = "get_state_wise_summary" then do
    let kw ← splatKwargs arguments
    pure (c.get_state_wise_summary kw)
  else if function_name = "get_time_series_comparison" then do
    let kw ← splatKwargs arguments
    pure (c.get_time_series_comparison kw)
  else if function_name = "get_aspirational_district_tracking" then do
    let kw ← splatKwargs arguments
    pure (c.get_aspirational_district_tracking kw)
  else if function_name = "get_cross_sdg_analysis" then do
    let kw ← splatKwargs arguments
    pure (c.get_cross_sdg_analysis kw)
  else if function_name = "get_neighboring_districts_comparison" then do
    let kw ← splatKwargs arguments
    pure (c.get_neighboring_districts_comparison kw)
  else if function_name = "get_state_wise_indicator_extremes" then do
    let kw ← splatKwargs arguments
    pure (c.get_state_wise_indicator_extremes kw)
  else if function_name = "get_most_least_improved_districts" then do
    let sdg ← jIndex arguments "sdg_goal_number"
    let ind ← jGetD arguments "indicator_name" .null
    let qt ← jGetD arguments "query_type" (.str "most_improved")
    let tn ← jGetD arguments "top_n" (.num 5)
    let st ← jGetD arguments "state_name" .null
    pure (c.get_most_least_improved_districts sdg ind qt tn st)
  else if function_name = "get_border_districts" then do
    let s1 ← jIndex arguments "state1"
    let s2 ← jGetD arguments "state2" .null
    let sdg ← jGetD arguments "sdg_goal_number" .null
    let ind ← jGetD arguments "indicator_names" .null
    let yr ← jGetD arguments "year" (.num 2021)
    let ib ← jGetD arguments "include_boundary_data" (.bool true)
    pure (c.get_border_districts s1 s2 sdg ind yr ib)
  else if function_name = "get_districts_within_radius" then do
    let cp ← jIndex arguments "center_point"
    let rk ← jIndex arguments "radius_km"
    let sdg ← jGetD arguments "sdg_goal_number" .null
    let ind ← jGetD arguments "indicator_names" .null
    let md ← jGetD arguments "max_districts" (.num 50)
    let ib ← jGetD arguments "include_boundary_data" (.bool true)
    pure (c.get_districts_within_radius cp rk sdg ind md ib)
  else
    Except.ok (.obj [("error",
      .str ("Unknown function: " ++ function_name))])

/-! ### The result sanitizer (lines 1086-1144) -/

/-- One item of the trend `data_summary` (lines 1102-1109): project the
`district`/`state`/`performance_percentile`/`annual_change` keys of one
performer dict (`d.get(...)`, `None` when missing). -/
def trendSummaryItem (d : JValue) : Except PyExc JValue :=
  match d with
  | .obj df =>
    .ok (.obj
      [("district", (jLookup "district" df).getD .null),
       ("state", (jLookup "state" df).getD .null),
       ("performance", (jLookup "performance_percentile" df).getD .null),
       ("annual_change", (jLookup "annual_change" df).getD .null)])
  | _ => .error .attributeError

/-- `[summary(d) for d in v[:3]]` plus `len(v)`; `TypeError` when `v` is not
a list. -/
def summarize3 (v : JValue) : Except PyExc (List JValue × Int) :=
  match v with
  | .arr xs => do
    let items ← (xs.take 3).mapM trendSummaryItem
    pure (items, (xs.length : Int))
  | _ => .error .typeError

/-- The cleaning pass of lines 1088-1124: shallow-copy the result, drop the
`boundary`/`boundary_data` keys, then either summarize trend data arrays
(keeping `enhanced_analysis`) or truncate a long `data` list to its first 10
items with a `data_summary` marker.  Non-dict results pass through
unchanged. -/
def clean_result (function_result : JValue) : Except PyExc JValue :=
  match function_result with
  | .obj fields0 =>
    let f := removeKey "boundary_data" (removeKey "boundary" fields0)
    if (match jLookup "query_type" f with
        | some (.str s) => decide (s = "trend")
        | _ => false) && hasKeyC "enhanced_analysis" f then
      match jLookup "data" f with
      | some (.obj dataFields) =>
        if hasKeyC "top_performers" dataFields &&
            hasKeyC "bottom_performers" dataFields then do
          let ts ← summarize3 ((jLookup "top_performers" dataFields).getD .null)
          let bs ← summarize3
            ((jLookup "bottom_performers" dataFields).getD .null)
          let f2 := setKey "data_summary"
            (.obj [("top_performers", .arr ts.1),
                   ("bottom_performers", .arr bs.1),
                   ("total_top", .num ts.2),
                   ("total_bottom", .num bs.2)]) f
          pure (.obj (removeKey "data" f2))
        else pure (.obj f)
      | _ => pure (.obj f)
    else
      match jLookup "data" f with
      | some (.arr xs) =>
        if xs.length > 10 then
          pure (.obj (setKey "data_summary"
            (.str ("Showing first 10 of " ++ toString xs.length ++
              " total districts"))
            (setKey "data" (.arr (xs.take 10)) f)))
        else pure (.obj f)
      | _ => pure (.obj f)
  | v => pure v

/-- The serialization of lines 1126-1132: results with an
`enhanced_analysis` key become the two labelled blocks
`ENHANCED_ANALYSIS: <text>\n\nOTHER_DATA: <json of the rest>`; everything
else is `json.dumps`ed whole. -/
def result_string (clean : JValue) : List Char :=
  match clean with
  | .obj f =>
    if hasKeyC "enhanced_analysis" f then
      "ENHANCED_ANALYSIS: ".data ++
        (pyStrC ((jLookup "enhanced_analysis" f).getD .null) ++
          ("\n\nOTHER_DATA: ".data ++
            jdumpC (.obj (removeKey "enhanced_analysis" f))))
    else jdumpC (.obj f)
  | v => jdumpC v

/-- The hard size cap of lines 1134-1144. -/
def apply_size_cap (s : List Char) : List Char :=
  if s.length > 4000 then
    if containsSubC "ENHANCED_ANALYSIS:".data s then
      match splitOnceC "OTHER_DATA:".data s with
      | (pre, some post) =>
        pre ++ ("OTHER_DATA:".data ++
          (post.take 1000 ++ "... [Other data truncated]".data))
      | (_, none) => s
    else s.take 3800 ++ "... [Result truncated for token limit]".data
  else s

/-- Clean and serialize one tool result for the LLM-facing tool message
(the composition performed per tool call at lines 1086-1144). -/
def sanitize_result (function_result : JValue) : Except PyExc (List Char) := do
  let c ← clean_result function_result
  pure (apply_size_cap (result_string c))

/-! ### The chatbot turn (lines 279-1203) -/

/-- One LLM-issued tool call: `id`, function name, and the result of
`json.loads` on its raw argument string (`none` models malformed JSON, which
raises `json.JSONDecodeError`). -/
structure ToolCallObj where
  id : String
  fname : String
  argsJson : Option JValue

/-- Outcome of the first OpenAI call (line 460): an API error, or an
assistant message with content and a (possibly empty) tool-call list. -/
inductive LLM1Res where
  | apiError
  | reply (content : String) (tool_calls : List ToolCallObj)

/-- Outcome of the synthesis OpenAI call (line 1153). -/
inductive LLM2Res where
  | apiError
  | message (content : String)

/-- One `function_results` entry (lines 1074-1078). -/
structure FunctionResultEntry where
  function : String
  arguments : JValue
  result : JValue

/-- The tool-call-path response of lines 1179-1185. -/
structure ToolsResponse where
  response : String
  map_type : JValue
  function_calls : List (String × JValue)
  data : List FunctionResultEntry
  boundary : List JValue

/-- The endpoint's JSON response: `{response}` on the direct path,
the full mapping on the tool-call path. -/
inductive ChatOutput where
  | plain (response : String)
  | withTools (r : ToolsResponse)

/-- The HTTP error categories raised by the `except` chain of lines
1196-1203 (the database-precheck `HTTPException` of line 287 is itself
caught by `except Exception` and re-raised as the generic category). -/
inductive TurnError where
  | invalidJsonFormat
  | openaiApi
  | databaseErr
  | unexpectedErr
deriving DecidableEq, Repr

/-- Boundary aggregation for one result (lines 1065-1072):
`result.get("boundary") or result.get("boundary_data")`, extended or
appended when truthy. -/
def collectBoundaries (result : JValue) (acc : List JValue) : List JValue :=
  match result with
  | .obj f =>
    let b0 := (jLookup "boundary" f).getD .null
    let b := if jTruthy b0 then b0
             else (jLookup "boundary_data" f).getD .null
    if jTruthy b then
      match b with
      | .arr xs => acc ++ xs
      | v => acc ++ [v]
    else acc
  | _ => acc

/-- The execution loop of lines 1056-1078: parse each call's JSON arguments
(malformed JSON aborts the turn), dispatch it, and collect the
`function_results` entries and the flattened boundary list.  A dispatch
exception aborts with the generic error category. -/
def processToolCalls (c : Collabs) (extract_district : String → Option String)
    (user_input : String) :
    List ToolCallObj → Except TurnError (List FunctionResultEntry × List JValue)
  | [] => .ok ([], [])
  | tc :: rest =>
    match tc.argsJson with
    | none => .error .invalidJsonFormat
    | some args =>
      match execute_function_call c extract_district user_input tc.fname
          args with
      | .error _ => .error .unexpectedErr
      | .ok result =>
        match processToolCalls c extract_district user_input rest with
        | .error e => .error e
        | .ok (entries, bounds) =>
          .ok (⟨tc.fname, args, result⟩ :: entries,
            collectBoundaries result [] ++ bounds)

/-- The tool-message construction loop of lines 1084-1150: one
`{"role": "tool", "tool_call_id": ..., "content": sanitized}` message per
call; a sanitizer exception aborts with the generic category. -/
def buildToolMessages :
    List (ToolCallObj × FunctionResultEntry) → Except TurnError (List Message)
  | [] => .ok []
  | (tc, en) :: rest =>
    match sanitize_result en.result with
    | .error _ => .error .unexpectedErr
    | .ok s =>
      match buildToolMessages rest with
      | .error e => .error e
      | .ok ms => .ok (⟨"tool", ⟨s⟩, none, some tc.id⟩ :: ms)

/-- The storage truncation of lines 1161-1163. -/
def truncate_for_history (final_response : String) : String :=
  if final_response.length > 2500 then
    ⟨final_response.data.take 2000⟩ ++
      "... [Response truncated for conversation history]"
  else final_response

/-- The `map_type` of the API response (lines 1170-1176). -/
def responseMapType (entries : List FunctionResultEntry) : JValue :=
  match entries with
  | [e] =>
    match e.result with
    | .obj f => (jLookup "map_type" f).getD (.str "sdg_analysis")
    | _ => .str "sdg_analysis"
  | _ => .str "sdg_analysis"

/-- One turn of the `/chatbot/` endpoint (lines 279-1203), over the session
history.  Returns the session history left in `session_store` after the turn
together with the HTTP outcome.  `db_ok` models the connectivity precheck of
lines 283-287; `llm1`/`llm2` model the two OpenAI calls; the static tool
catalog attached to the first call is part of the `llm1` oracle. -/
def chatbotTurn (c : Collabs) (extract_district : String → Option String)
    (enc : String → Nat) (llm1 : List Message → LLM1Res)
    (llm2 : List Message → LLM2Res) (db_ok : Bool)
    (history0 : List Message) (query : String) :
    List Message × Except TurnError ChatOutput :=
  if db_ok = false then (history0, .error .unexpectedErr)
  else
    let user_message : Message := ⟨"user", query, none, none⟩
    let h1 := manage_conversation_history enc history0 user_message
    match llm1 h1 with
    | .apiError => (h1, .error .openaiApi)
    | .reply content tool_calls =>
      match tool_calls with
      | [] =>
        (manage_conversation_history enc h1
          ⟨"assistant", content, none, none⟩, .ok (.plain content))
      | tc :: rest =>
        match processToolCalls c extract_district query (tc :: rest) with
        | .error e => (h1, .error e)
        | .ok (entries, bounds) =>
          match buildToolMessages (List.zip (tc :: rest) entries) with
          | .error e => (h1, .error e)
          | .ok toolMsgs =>
            let messages_with_results :=
              h1 ++ [⟨"assistant", content, none, none⟩] ++ toolMsgs
            match llm2 messages_with_results with
            | .apiError => (h1, .error .openaiApi)
            | .message final_response =>
              (manage_conversation_history enc h1
                ⟨"assistant", truncate_for_history final_response, none,
                  none⟩,
               .ok (.withTools
                 ⟨final_response, responseMapType entries,
                  entries.map (fun e => (e.function, e.arguments)), entries,
                  bounds⟩))

/-- A trivial concrete collaborator set (every oracle returns `null`), for
closed evaluations. -/
def constCollabs : Collabs :=
  ⟨fun _ => .null, fun _ => .null, fun _ _ _ _ _ => .null,
   fun _ _ _ _ _ => .null, fun _ _ => .null, fun _ _ _ _ _ => .null,
   fun _ _ _ _ _ => .null, fun _ => .null, fun _ => .null, fun _ => .null,
   fun _ => .null, fun _ => .null, fun _ => .null, fun _ _ _ _ _ => .null,
   fun _ _ _ _ _ _ => .null, fun _ _ _ _ _ _ => .null⟩

/-- A concrete tool result with boundary keys and data, for the sanitizer
frame-effect witness. -/
def r0C10 : JValue :=
  .obj [("boundary", .str "B"), ("boundary_data", .str "B2"),
        ("map_type", .str "m"), ("data", .arr [.num 1])]

/-- Collaborators whose primary ranking function returns `r0C10`. -/
def collabsC10 : Collabs :=
  ⟨fun _ => r0C10, fun _ => .null, fun _ _ _ _ _ => .null,
   fun _ _ _ _ _ => .null, fun _ _ => .null, fun _ _ _ _ _ => .null,
   fun _ _ _ _ _ => .null, fun _ => .null, fun _ => .null, fun _ => .null,
   fun _ => .null, fun _ => .null, fun _ => .null, fun _ _ _ _ _ => .null,
   fun _ _ _ _ _ _ => .null, fun _ _ _ _ _ _ => .null⟩

/-- An `enhanced_analysis` text that itself contains the `OTHER_DATA:`
marker followed by 1200 more characters (the sanitizer's
split-on-first-occurrence then cuts inside the analysis text). -/
def eaC4 : List Char := "OTHER_DATA:".data ++ List.replicate 1200 'a'

/-- The fields of the counterexample tool result: the boobytrapped analysis
plus a 3000-character data payload pushing the serialization past 4000. -/
def fieldsC4 : List (String × JValue) :=
  [("enhanced_analysis", .str (String.mk eaC4)),
   ("data", .str (String.mk (List.replicate 3000 'b')))]

def rC4 : JValue := .obj fieldsC4

/-- What the sanitizer actually sends for `rC4`: the split happens at the
occurrence of `OTHER_DATA:` inside the analysis text, so only the first
1000 of its 1200 trailing characters survive. -/
def outC4 : List Char :=
  "ENHANCED_ANALYSIS: ".data ++
    ("OTHER_DATA:".data ++
      (List.replicate 1000 'a' ++ "... [Other data truncated]".data))

/-- A well-behaved oversized tool result for the amended-claim witness. -/
def fieldsW4 : List (String × JValue) :=
  [("enhanced_analysis", .str "abc"),
   ("data", .str (String.mk (List.replicate 4000 'b')))]

def rW4 : JValue := .obj fieldsW4

-- ===== END OF DEFINITIONS (part 1) =====

end SdgMain

namespace SdgMain

/-! ### Lemmas about the eviction loop and the trimming steps -/

theorem pop1_length (h : List Message) (hl : 2 ≤ h.length) :
    (pop1 h).length + 1 = h.length := by
  match h with
  | [] => simp at hl
  | [a] => simp at hl
  | a :: b :: t => simp [pop1]

theorem pop1_head? (h : List Message) : (pop1 h).head? = h.head? := by
  match h with
  | [] => rfl
  | [a] => rfl
  | a :: b :: t => rfl

/-- After the eviction loop runs with enough fuel, it is never the case that
the token count still exceeds the limit while more than 3 messages remain. -/
theorem evictFuel_post (enc : String → Nat) :
    ∀ (fuel : Nat) (h : List Message), h.length ≤ fuel + 3 →
      ¬(count_tokens enc (evictFuel enc fuel h) > SAFE_TOKEN_LIMIT ∧
        3 < (evictFuel enc fuel h).length) := by
  intro fuel
  induction fuel with
  | zero =>
    intro h hl
    simp only [evictFuel]
    omega
  | succ n ih =>
    intro h hl
    by_cases hc : count_tokens enc h > SAFE_TOKEN_LIMIT ∧ 3 < h.length
    · rw [evictFuel, if_pos hc]
      apply ih
      have := pop1_length h (by omega)
      omega
    · rw [evictFuel, if_neg hc]
      exact hc

theorem evictLoop_post (enc : String → Nat) (h : List Message) :
    ¬(count_tokens enc (evictLoop enc h) > SAFE_TOKEN_LIMIT ∧
      3 < (evictLoop enc h).length) :=
  evictFuel_post enc h.length h (by omega)

theorem evictFuel_head? (enc : String → Nat) :
    ∀ (fuel : Nat) (h : List Message),
      (evictFuel enc fuel h).head? = h.head? := by
  intro fuel
  induction fuel with
  | zero => intro h; rfl
  | succ n ih =>
    intro h
    by_cases hc : count_tokens enc h > SAFE_TOKEN_LIMIT ∧ 3 < h.length
    · rw [evictFuel, if_pos hc, ih, pop1_head?]
    · rw [evictFuel, if_neg hc]

/-- The eviction loop keeps the head and drops exactly `evictItersFuel` of
the oldest non-head messages. -/
theorem evictFuel_eq_drop (enc : String → Nat) :
    ∀ (fuel : Nat) (a : Message) (t : List Message),
      evictFuel enc fuel (a :: t) =
        a :: t.drop (evictItersFuel enc fuel (a :: t)) := by
  intro fuel
  induction fuel with
  | zero => intro a t; simp [evictFuel, evictItersFuel]
  | succ n ih =>
    intro a t
    by_cases hc : count_tokens enc (a :: t) > SAFE_TOKEN_LIMIT ∧
        3 < (a :: t).length
    · rw [evictFuel, if_pos hc, evictItersFuel, if_pos hc]
      match t, hc.2 with
      | b :: t', _ =>
        rw [show pop1 (a :: b :: t') = a :: t' from rfl, ih]
        simp
    · rw [evictFuel, if_neg hc, evictItersFuel, if_neg hc]
      simp

/-- The loop performs at most `length - 3` iterations. -/
theorem evictItersFuel_le (enc : String → Nat) :
    ∀ (fuel : Nat) (h : List Message),
      evictItersFuel enc fuel h ≤ h.length - 3 := by
  intro fuel
  induction fuel with
  | zero => intro h; simp [evictItersFuel]
  | succ n ih =>
    intro h
    by_cases hc : count_tokens enc h > SAFE_TOKEN_LIMIT ∧ 3 < h.length
    · rw [evictItersFuel, if_pos hc]
      have h1 := pop1_length h (by omega)
      have h2 := ih (pop1 h)
      omega
    · rw [evictItersFuel, if_neg hc]
      omega

theorem truncate_last_length (h : List Message) :
    (truncate_last h).length = h.length := by
  match h with
  | [] => rfl
  | a :: t =>
    simp only [truncate_last]
    by_cases hc : ((a :: t).getLast (by simp)).content.length > 1000
    · rw [if_pos hc]
      simp
    · rw [if_neg hc]

theorem truncate_last_head?_role (h : List Message) :
    ((truncate_last h).head?).map Message.role =
      (h.head?).map Message.role := by
  match h with
  | [] => rfl
  | [a] =>
    simp only [truncate_last]
    by_cases hc : ([a].getLast (by simp)).content.length > 1000
    · rw [if_pos hc]
      simp [List.getLast]
    · rw [if_neg hc]
  | a :: b :: t =>
    simp only [truncate_last]
    by_cases hc : ((a :: b :: t).getLast (by simp)).content.length > 1000
    · rw [if_pos hc]
      rw [List.dropLast_cons_of_ne_nil (by simp)]
      rfl
    · rw [if_neg hc]

theorem ensure_system_message_head (history : List Message) :
    ((ensure_system_message history).head?).map Message.role =
      some "system" := by
  match history with
  | [] => rfl
  | h :: t =>
    simp only [ensure_system_message]
    by_cases hr : h.role ≠ "system"
    · rw [if_pos hr]; rfl
    · rw [if_neg hr]
      simp only [List.head?_cons, Option.map_some']
      rw [not_not] at hr
      rw [hr]

theorem ensure_system_message_ne_nil (history : List Message) :
    ensure_system_message history ≠ [] := by
  match history with
  | [] => simp [ensure_system_message]
  | h :: t =>
    simp only [ensure_system_message]
    by_cases hr : h.role ≠ "system"
    · rw [if_pos hr]; simp
    · rw [if_neg hr]; simp

/-- Helper shared by the budget-invariant claims: every history produced by
`manage_conversation_history` is under the token limit or at the 3-message
eviction floor. -/
theorem manage_budget_or_floor (enc : String → Nat) (history : List Message)
    (new_message : Message) :
    count_tokens enc (manage_conversation_history enc history new_message) ≤
      SAFE_TOKEN_LIMIT ∨
    (manage_conversation_history enc history new_message).length ≤ 3 := by
  have hpost := evictLoop_post enc
    (ensure_system_message history ++ [new_message])
  simp only [manage_conversation_history]
  rw [if_neg hpost]
  by_cases hc : count_tokens enc
      (evictLoop enc (ensure_system_message history ++ [new_message])) >
        SAFE_TOKEN_LIMIT ∧
      1 < (evictLoop enc (ensure_system_message history ++ [new_message])).length
  · rw [if_pos hc]
    right
    rw [truncate_last_length]
    have h3 : ¬3 < (evictLoop enc
        (ensure_system_message history ++ [new_message])).length :=
      fun hl => hpost ⟨hc.1, hl⟩
    omega
  · rw [if_neg hc]
    rcases not_and_or.mp hc with hcount | hlen
    · left; omega
    · right; omega

end SdgMain

namespace SdgMain

/-! ### Claim C2: token budget invariant -/

/-- C2.  For every input history, new message and model encoder, the history
returned by `manage_conversation_history` satisfies at least one of: its
token count is at most `SAFE_TOKEN_LIMIT`, or its length is at most 3, or
its last message's content was truncated by the defensive step (content
replaced by its first 800 characters plus a truncation marker). -/
theorem c2_token_budget_invariant (enc : String → Nat)
    (history : List Message) (new_message : Message) :
    count_tokens enc (manage_conversation_history enc history new_message) ≤
      SAFE_TOKEN_LIMIT ∨
    (manage_conversation_history enc history new_message).length ≤ 3 ∨
    (∃ (rest : List Message) (m : Message) (orig : String),
      manage_conversation_history enc history new_message = rest ++ [m] ∧
      m.content = orig.take 800 ++ "... [Message truncated]") := by
  rcases manage_budget_or_floor enc history new_message with h | h
  · exact Or.inl h
  · exact Or.inr (Or.inl h)

/-! ### Claim C5: system-message invariant -/

/-- C5.  For every input history (including an empty one or one whose first
message is not a system message), the history returned by
`manage_conversation_history` has a message at index 0 whose role is
`"system"`. -/
theorem c5_system_message_invariant (enc : String → Nat)
    (history : List Message) (new_message : Message) :
    ((manage_conversation_history enc history new_message).head?).map
        Message.role = some "system" := by
  have hpost := evictLoop_post enc
    (ensure_system_message history ++ [new_message])
  have hhead : ((evictLoop enc
      (ensure_system_message history ++ [new_message])).head?).map
        Message.role = some "system" := by
    rw [evictLoop, evictFuel_head?]
    rcases Option.map_eq_some'.mp (ensure_system_message_head history) with
      ⟨msg, hmsg, hrole⟩
    rw [List.head?_append, hmsg]
    simp [hrole]
  simp only [manage_conversation_history]
  rw [if_neg hpost]
  by_cases hc : count_tokens enc
      (evictLoop enc (ensure_system_message history ++ [new_message])) >
        SAFE_TOKEN_LIMIT ∧
      1 < (evictLoop enc (ensure_system_message history ++ [new_message])).length
  · rw [if_pos hc, truncate_last_head?_role]
    exact hhead
  · rw [if_neg hc]
    exact hhead

/-! ### Claim C9: the escalated-eviction branch is dead code -/

/-- C9.  For every input history, new message and model encoder, when the
eviction loop of `manage_conversation_history` terminates it is never the
case that the token count still exceeds `SAFE_TOKEN_LIMIT` while more than 3
messages remain; consequently the escalated-eviction branch that collapses
the history to `[system] + last two messages` is unreachable and the
function is equal to the same function with that branch removed. -/
theorem c9_escalated_eviction_unreachable (enc : String → Nat)
    (history : List Message) (new_message : Message) :
    (¬(count_tokens enc
        (evictLoop enc (ensure_system_message history ++ [new_message])) >
          SAFE_TOKEN_LIMIT ∧
       3 < (evictLoop enc
        (ensure_system_message history ++ [new_message])).length)) ∧
    manage_conversation_history enc history new_message =
      manage_conversation_history_no_escalation enc history new_message := by
  have hpost := evictLoop_post enc
    (ensure_system_message history ++ [new_message])
  refine ⟨hpost, ?_⟩
  simp only [manage_conversation_history,
    manage_conversation_history_no_escalation]
  rw [if_neg hpost]

end SdgMain

namespace SdgMain

/-! ### Claim C3: eviction order -/

/-- `ensure_system_message` is the identity on histories already headed by a
system message. -/
theorem ensure_system_message_eq (h : List Message)
    (hsys : (h.head?).map Message.role = some "system") :
    ensure_system_message h = h := by
  match h with
  | [] => simp at hsys
  | a :: t =>
    simp only [List.head?_cons, Option.map_some'] at hsys
    simp only [ensure_system_message]
    rw [if_neg]
    simp only [ne_eq, not_not]
    exact Option.some.inj hsys

/-- C3 (amended).  For a history already headed by a system message, when the
eviction loop of `manage_conversation_history` performs `K` iterations and
terminates under budget, the surviving messages are exactly the message at
index 0 plus the messages at indices `K+1 .. N` of the appended history
(`N` the last index): the `K` oldest non-system messages are removed, one at
a time from index 1, and the system message and the newest message are
preserved.  (The claim's survivor set `{0} ∪ {N-K+1 .. N}` is off: it
describes `K` survivors rather than `K` evictions; see
`c3_counterexample`.) -/
theorem c3_eviction_order_amended (enc : String → Nat) (h : List Message)
    (m : Message)
    (hsys : (h.head?).map Message.role = some "system")
    (hbudget : count_tokens enc (evictLoop enc (h ++ [m])) ≤
      SAFE_TOKEN_LIMIT) :
    manage_conversation_history enc h m =
      (h ++ [m]).take 1 ++
        (h ++ [m]).drop (evictIters enc (h ++ [m]) + 1) ∧
    (manage_conversation_history enc h m).getLast? = some m := by
  match h with
  | [] => simp at hsys
  | a :: t =>
    have hens : ensure_system_message (a :: t) = a :: t :=
      ensure_system_message_eq _ hsys
    have hlen : ((a :: t) ++ [m]).length = t.length + 2 := by simp
    have hK := evictItersFuel_le enc ((a :: t) ++ [m]).length ((a :: t) ++ [m])
    rw [hlen] at hK
    have hKt : evictIters enc ((a :: t) ++ [m]) ≤ t.length := by
      rw [evictIters, hlen]
      omega
    have hloop : evictLoop enc ((a :: t) ++ [m]) =
        a :: (t ++ [m]).drop (evictIters enc ((a :: t) ++ [m])) := by
      rw [evictLoop, evictIters]
      rw [show (a :: t) ++ [m] = a :: (t ++ [m]) from rfl]
      exact evictFuel_eq_drop enc _ a (t ++ [m])
    have hnc : ¬(count_tokens enc (evictLoop enc ((a :: t) ++ [m])) >
        SAFE_TOKEN_LIMIT ∧ 3 < (evictLoop enc ((a :: t) ++ [m])).length) :=
      fun hcc => absurd hbudget (not_le.mpr hcc.1)
    have hnc1 : ¬(count_tokens enc (evictLoop enc ((a :: t) ++ [m])) >
        SAFE_TOKEN_LIMIT ∧ 1 < (evictLoop enc ((a :: t) ++ [m])).length) :=
      fun hcc => absurd hbudget (not_le.mpr hcc.1)
    have hmanage : manage_conversation_history enc (a :: t) m =
        a :: (t ++ [m]).drop (evictIters enc ((a :: t) ++ [m])) := by
      simp only [manage_conversation_history]
      rw [hens, if_neg hnc, if_neg hnc1, hloop]
    constructor
    · rw [hmanage]
      rw [show (a :: t) ++ [m] = a :: (t ++ [m]) from rfl]
      simp [List.drop_succ_cons]
    · rw [hmanage]
      rw [List.drop_append_of_le_length hKt]
      rw [show a :: (List.drop (evictIters enc (a :: t ++ [m])) t ++ [m]) =
        (a :: List.drop (evictIters enc (a :: t ++ [m])) t) ++ [m] from rfl]
      exact List.getLast?_concat _

/-- C3 (counterexample).  A history of six messages (indices 0..5, the last
being the newly appended one) sized to force exactly `K = 3` eviction-loop
iterations: the survivors are the messages at indices `{0, 4, 5}`, whereas
the claimed survivor set `{0} ∪ {N-K+1 .. N} = {0, 3, 4, 5}` would also
retain index 3. -/
theorem c3_counterexample :
    evictIters encC3 ([sysM, mC3 1, mC3 2, mC3 3, mC3 4] ++ [mC3 5]) = 3 ∧
    manage_conversation_history encC3 [sysM, mC3 1, mC3 2, mC3 3, mC3 4]
      (mC3 5) = [sysM, mC3 4, mC3 5] ∧
    [sysM, mC3 4, mC3 5] ≠ [sysM, mC3 3, mC3 4, mC3 5] := by
  refine ⟨by decide, by decide, by decide⟩

/-- C3 (witness for the amended theorem at a concrete input). -/
theorem c3_eviction_order_amended_witness :
    manage_conversation_history encC3 [sysM, mC3 1, mC3 2, mC3 3, mC3 4]
        (mC3 5) =
      ([sysM, mC3 1, mC3 2, mC3 3, mC3 4] ++ [mC3 5]).take 1 ++
        ([sysM, mC3 1, mC3 2, mC3 3, mC3 4] ++ [mC3 5]).drop
          (evictIters encC3 ([sysM, mC3 1, mC3 2, mC3 3, mC3 4] ++ [mC3 5]) +
            1) ∧
    (manage_conversation_history encC3 [sysM, mC3 1, mC3 2, mC3 3, mC3 4]
        (mC3 5)).getLast? = some (mC3 5) :=
  c3_eviction_order_amended encC3 [sysM, mC3 1, mC3 2, mC3 3, mC3 4] (mC3 5)
    (by decide) (by decide)

end SdgMain

namespace SdgMain

/-! ### Claim C7: count extraction -/

/-- C7.  For every query text, `analyze_sdg_query_intent` applies the
ordered numeric patterns to the lowercased text and the first match
determines `top_n`; if no pattern matches, `top_n` is 10 when the text
contains one of "many", "all", "list", and 5 otherwise.  In particular
"show top 12 districts" yields `top_n = 12`, "list all districts" yields
`top_n = 10`, and "districts in SDG 5" yields `top_n = 5`. -/
theorem c7_count_extraction :
    (∀ (ed : String → Option String) (q : String) (n : Int),
      firstNumMatch number_patterns (pyLower q) = some n →
      (analyze_sdg_query_intent ed q).top_n = n) ∧
    (∀ (ed : String → Option String) (q : String),
      firstNumMatch number_patterns (pyLower q) = none →
      (analyze_sdg_query_intent ed q).top_n =
        (if containsAny many_all_list_keywords (pyLower q) then 10 else 5)) ∧
    (∀ ed, (analyze_sdg_query_intent ed "show top 12 districts").top_n = 12) ∧
    (∀ ed, (analyze_sdg_query_intent ed "list all districts").top_n = 10) ∧
    (∀ ed, (analyze_sdg_query_intent ed "districts in SDG 5").top_n = 5) := by
  refine ⟨?_, ?_, ?_, ?_, ?_⟩
  · intro ed q n h
    simp only [analyze_sdg_query_intent]
    rw [h]
  · intro ed q h
    simp only [analyze_sdg_query_intent]
    rw [h]
  · intro ed; rfl
  · intro ed; rfl
  · intro ed; rfl

/-- C7 (witness): the first clause applied at a concrete query whose first
matching pattern is `top\s+(\d+)`. -/
theorem c7_count_extraction_witness :
    firstNumMatch number_patterns (pyLower "top 4 things") = some 4 ∧
    (analyze_sdg_query_intent (fun _ => none) "top 4 things").top_n = 4 :=
  ⟨by decide,
   c7_count_extraction.1 (fun _ => none) "top 4 things" 4 (by decide)⟩

end SdgMain

namespace SdgMain

/-! ### Claim C6: dispatcher merge precedence for `get_sdg_goal_data` -/

theorem detectState_mem :
    ∀ (l : List (String × List String)) (q : List Char) (s : String),
      detectState l q = some s → s ∈ l.map Prod.fst := by
  intro l
  induction l with
  | nil => intro q s h; simp [detectState] at h
  | cons kv rest ih =>
    intro q s h
    match kv with
    | (st, kws) =>
      simp only [detectState] at h
      by_cases hc : kws.any (fun k => containsSubC k.data q) = true
      · rw [if_pos hc] at h
        cases h
        simp
      · rw [if_neg hc] at h
        simp only [List.map_cons, List.mem_cons]
        exact Or.inr (ih q s h)

theorem detectState_state_keywords_ne_empty (q : List Char) (s : String)
    (h : detectState state_keywords q = some s) : s ≠ "" := by
  intro he
  subst he
  have hm := detectState_mem state_keywords q "" h
  revert hm
  decide

theorem analyze_state_name_eq (ed : String → Option String) (u : String) :
    (analyze_sdg_query_intent ed u).state_name =
      detectState state_keywords (pyLower u) := rfl

theorem resolve_dispatch_link (c : Collabs)
    (ed : String → Option String) (u : String) (args : JValue)
    (p : GoalDataParams)
    (hp : resolveGoalDataParams ed u args = .ok p) :
    execute_function_call c ed u "get_sdg_goal_data" args =
      .ok (c.get_sdg_goal_data p) := by
  unfold execute_function_call
  rw [if_pos rfl, hp]
  rfl

theorem resolve_query_type_supplied (ed : String → Option String)
    (u : String) (fields : List (String × JValue)) (v : JValue)
    (p : GoalDataParams) (hv : jLookup "query_type" fields = some v)
    (hp : resolveGoalDataParams ed u (.obj fields) = .ok p) :
    p.query_type = v := by
  unfold resolveGoalDataParams at hp
  simp only [jGetD, jGetOpt, hv, Option.getD, bind, Except.bind, pure,
    Except.pure] at hp
  split at hp
  · split at hp
    all_goals cases hp
    all_goals rfl
  · cases hp
    rfl

theorem resolve_query_type_absent (ed : String → Option String)
    (u : String) (fields : List (String × JValue))
    (p : GoalDataParams) (hv : jLookup "query_type" fields = none)
    (hp : resolveGoalDataParams ed u (.obj fields) = .ok p) :
    p.query_type = .str (analyze_sdg_query_intent ed u).query_type := by
  unfold resolveGoalDataParams at hp
  simp only [jGetD, jGetOpt, hv, Option.getD, bind, Except.bind, pure,
    Except.pure] at hp
  split at hp
  · split at hp
    all_goals cases hp
    all_goals rfl
  · cases hp
    rfl

theorem resolve_top_n_supplied (ed : String → Option String)
    (u : String) (fields : List (String × JValue)) (v : JValue)
    (p : GoalDataParams) (hv : jLookup "top_n" fields = some v)
    (hp : resolveGoalDataParams ed u (.obj fields) = .ok p) :
    p.top_n = v := by
  unfold resolveGoalDataParams at hp
  simp only [jGetD, jGetOpt, hv, Option.getD, bind, Except.bind, pure,
    Except.pure] at hp
  split at hp
  · split at hp
    all_goals cases hp
    all_goals rfl
  · cases hp
    rfl

theorem resolve_top_n_absent (ed : String → Option String)
    (u : String) (fields : List (String × JValue))
    (p : GoalDataParams) (hv : jLookup "top_n" fields = none)
    (hp : resolveGoalDataParams ed u (.obj fields) = .ok p) :
    p.top_n = .num (analyze_sdg_query_intent ed u).top_n := by
  unfold resolveGoalDataParams at hp
  simp only [jGetD, jGetOpt, hv, Option.getD, bind, Except.bind, pure,
    Except.pure] at hp
  split at hp
  · split at hp
    all_goals cases hp
    all_goals rfl
  · cases hp
    rfl

theorem jTruthy_str_of_ne (s : String) (hs : s ≠ "") :
    jTruthy (JValue.str s) = true := by
  cases hb : s.isEmpty with
  | true => exact absurd ((String.isEmpty_iff s).mp hb) hs
  | false => simp [jTruthy, hb]

theorem resolve_state_supplied (ed : String → Option String)
    (u : String) (fields : List (String × JValue)) (s : String)
    (p : GoalDataParams) (hv : jLookup "state_name" fields = some (.str s))
    (hs : s ≠ "")
    (hp : resolveGoalDataParams ed u (.obj fields) = .ok p) :
    p.state_name = .str (pyTitle s) := by
  have htr : jTruthy (JValue.str s) = true := jTruthy_str_of_ne s hs
  unfold resolveGoalDataParams at hp
  simp only [jGetD, jGetOpt, hv, Option.getD, bind, Except.bind, pure,
    Except.pure, htr, if_true] at hp
  cases hp
  rfl

theorem resolve_state_fallback (ed : String → Option String)
    (u : String) (fields : List (String × JValue))
    (p : GoalDataParams)
    (hv : jLookup "state_name" fields = none ∨
      ∃ v, jLookup "state_name" fields = some v ∧ jTruthy v = false)
    (hp : resolveGoalDataParams ed u (.obj fields) = .ok p) :
    p.state_name =
      (match (analyze_sdg_query_intent ed u).state_name with
       | some s => JValue.str (pyTitle s)
       | none => JValue.null) := by
  unfold resolveGoalDataParams at hp
  rcases hv with hnone | ⟨v, hsome, hfalse⟩
  · simp only [jGetD, jGetOpt, hnone, Option.getD, bind, Except.bind, pure,
      Except.pure] at hp
    cases hst : (analyze_sdg_query_intent ed u).state_name with
    | none =>
      rw [hst] at hp
      rw [if_neg (by decide)] at hp
      cases hp
      simp only [hst]
    | some s =>
      have hs : s ≠ "" := by
        apply detectState_state_keywords_ne_empty (pyLower u)
        rw [← analyze_state_name_eq ed u, hst]
      have htr : jTruthy (JValue.str s) = true := jTruthy_str_of_ne s hs
      rw [hst] at hp
      rw [if_pos htr] at hp
      cases hp
      simp only [hst]
  · simp only [jGetD, jGetOpt, hsome, Option.getD, bind, Except.bind, pure,
      Except.pure, hfalse] at hp
    simp only [Bool.false_eq_true, if_false] at hp
    cases hst : (analyze_sdg_query_intent ed u).state_name with
    | none =>
      rw [hst] at hp
      rw [if_neg (by decide)] at hp
      cases hp
      simp only [hst]
    | some s =>
      have hs : s ≠ "" := by
        apply detectState_state_keywords_ne_empty (pyLower u)
        rw [← analyze_state_name_eq ed u, hst]
      have htr : jTruthy (JValue.str s) = true := jTruthy_str_of_ne s hs
      rw [hst] at hp
      rw [if_pos htr] at hp
      cases hp
      simp only [hst]


/-- C6.  Dispatcher merge precedence for the primary ranking function
`get_sdg_goal_data`: each of `query_type`, `top_n` and `state_name` is
resolved independently, with an LLM-supplied argument value taking
precedence over the `QueryIntentAnalyzer`-derived value, and any resolved
(truthy) state name is title-cased before being passed to the collaborator;
the resolved parameters are exactly what the dispatch passes to the
collaborator. -/
theorem c6_dispatcher_merge_precedence :
    (∀ (c : Collabs) (ed : String → Option String) (u : String)
        (args : JValue) (p : GoalDataParams),
      resolveGoalDataParams ed u args = .ok p →
      execute_function_call c ed u "get_sdg_goal_data" args =
        .ok (c.get_sdg_goal_data p)) ∧
    (∀ (ed : String → Option String) (u : String)
        (fields : List (String × JValue)) (v : JValue) (p : GoalDataParams),
      jLookup "query_type" fields = some v →
      resolveGoalDataParams ed u (.obj fields) = .ok p →
      p.query_type = v) ∧
    (∀ (ed : String → Option String) (u : String)
        (fields : List (String × JValue)) (p : GoalDataParams),
      jLookup "query_type" fields = none →
      resolveGoalDataParams ed u (.obj fields) = .ok p →
      p.query_type = .str (analyze_sdg_query_intent ed u).query_type) ∧
    (∀ (ed : String → Option String) (u : String)
        (fields : List (String × JValue)) (v : JValue) (p : GoalDataParams),
      jLookup "top_n" fields = some v →
      resolveGoalDataParams ed u (.obj fields) = .ok p →
      p.top_n = v) ∧
    (∀ (ed : String → Option String) (u : String)
        (fields : List (String × JValue)) (p : GoalDataParams),
      jLookup "top_n" fields = none →
      resolveGoalDataParams ed u (.obj fields) = .ok p →
      p.top_n = .num (analyze_sdg_query_intent ed u).top_n) ∧
    (∀ (ed : String → Option String) (u : String)
        (fields : List (String × JValue)) (s : String) (p : GoalDataParams),
      jLookup "state_name" fields = some (.str s) → s ≠ "" →
      resolveGoalDataParams ed u (.obj fields) = .ok p →
      p.state_name = .str (pyTitle s)) ∧
    (∀ (ed : String → Option String) (u : String)
        (fields : List (String × JValue)) (p : GoalDataParams),
      (jLookup "state_name" fields = none ∨
        ∃ v, jLookup "state_name" fields = some v ∧ jTruthy v = false) →
      resolveGoalDataParams ed u (.obj fields) = .ok p →
      p.state_name =
        (match (analyze_sdg_query_intent ed u).state_name with
         | some s => JValue.str (pyTitle s)
         | none => JValue.null)) :=
  ⟨resolve_dispatch_link, resolve_query_type_supplied,
   resolve_query_type_absent, resolve_top_n_supplied, resolve_top_n_absent,
   resolve_state_supplied, resolve_state_fallback⟩

/-- C6 (witness): the LLM supplies `top_n = 3` while the intent analyzer
derives `top_n = 7` from "show top 7 districts"; the resolved call uses 3. -/
theorem c6_dispatcher_merge_precedence_witness :
    resolveGoalDataParams (fun _ => none) "show top 7 districts"
        (.obj [("sdg_goal_number", JValue.num 1),
               ("top_n", JValue.num 3)]) =
      .ok ⟨JValue.num 1, JValue.null, JValue.num 2021,
        JValue.str "top_performers", JValue.num 3, JValue.null, JValue.null,
        JValue.bool true⟩ ∧
    (⟨JValue.num 1, JValue.null, JValue.num 2021,
        JValue.str "top_performers", JValue.num 3, JValue.null, JValue.null,
        JValue.bool true⟩ : GoalDataParams).top_n = JValue.num 3 ∧
    (analyze_sdg_query_intent (fun _ => none) "show top 7 districts").top_n =
      7 :=
  ⟨rfl,
   c6_dispatcher_merge_precedence.2.2.2.1 (fun _ => none)
     "show top 7 districts"
     [("sdg_goal_number", JValue.num 1), ("top_n", JValue.num 3)]
     (JValue.num 3) _ rfl rfl,
   rfl⟩

end SdgMain

namespace SdgMain

/-! ### Claim C8: unknown function name -/

/-- C8.  For every function name outside the catalog and every argument
value, `execute_function_call` returns the mapping
`{"error": "Unknown function: <name>"}` as an ordinary (non-exceptional)
result. -/
theorem c8_unknown_function (c : Collabs)
    (ed : String → Option String) (u : String) (function_name : String)
    (args : JValue) (h : function_name ∉ known_function_names) :
    execute_function_call c ed u function_name args =
      .ok (.obj [("error",
        .str ("Unknown function: " ++ function_name))]) := by
  simp only [known_function_names, List.mem_cons, List.not_mem_nil,
    or_false, not_or] at h
  obtain ⟨h1, h2, h3, h4, h5, h6, h7, h8, h9, h10, h11, h12, h13, h14, h15,
    h16⟩ := h
  unfold execute_function_call
  rw [if_neg h1, if_neg h2, if_neg h3, if_neg h4, if_neg h5, if_neg h6,
    if_neg h7, if_neg h8, if_neg h9, if_neg h10, if_neg h11, if_neg h12,
    if_neg h13, if_neg h14, if_neg h15, if_neg h16]

/-- C8 (witness): dispatching `"nonexistent_function"` returns
`{"error": "Unknown function: nonexistent_function"}` without raising. -/
theorem c8_unknown_function_witness :
    "nonexistent_function" ∉ known_function_names ∧
    execute_function_call constCollabs (fun _ => none) "q"
        "nonexistent_function" (.obj []) =
      .ok (.obj [("error",
        .str "Unknown function: nonexistent_function")]) :=
  ⟨by decide,
   c8_unknown_function constCollabs (fun _ => none) "q"
     "nonexistent_function" (.obj []) (by decide)⟩

end SdgMain

namespace SdgMain

/-! ### Claim C1: history mutation on aborted turns -/

/-- C1 (amended).  The database-precheck failure aborts before any history
mutation; every other aborted turn (malformed tool-call JSON, model-API
error at either call, dispatch/sanitizer exception) leaves the session
history mutated by exactly the user-message append performed at the start of
the turn — `manage_conversation_history(history, user_message)` — with no
tool or assistant message committed.  Collaborator-returned `{error: ...}`
results and unknown function names are not aborts: when every dispatch
returns a value and both model calls succeed, the turn commits the
synthesized answer and returns the tool-path response. -/
theorem c1_history_on_abort :
    (∀ (c : Collabs) (ed : String → Option String) (enc : String → Nat)
        (llm1 : List Message → LLM1Res) (llm2 : List Message → LLM2Res)
        (h0 : List Message) (q : String),
      chatbotTurn c ed enc llm1 llm2 false h0 q =
        (h0, .error .unexpectedErr)) ∧
    (∀ (c : Collabs) (ed : String → Option String) (enc : String → Nat)
        (llm1 : List Message → LLM1Res) (llm2 : List Message → LLM2Res)
        (h0 : List Message) (q : String) (e : TurnError),
      (chatbotTurn c ed enc llm1 llm2 true h0 q).2 = .error e →
      (chatbotTurn c ed enc llm1 llm2 true h0 q).1 =
        manage_conversation_history enc h0 ⟨"user", q, none, none⟩) ∧
    (∀ (c : Collabs) (ed : String → Option String) (enc : String → Nat)
        (llm1 : List Message → LLM1Res) (llm2 : List Message → LLM2Res)
        (h0 : List Message) (q : String) (content : String)
        (tc : ToolCallObj) (rest : List ToolCallObj)
        (entries : List FunctionResultEntry) (bounds : List JValue)
        (toolMsgs : List Message) (s : String),
      llm1 (manage_conversation_history enc h0 ⟨"user", q, none, none⟩) =
        .reply content (tc :: rest) →
      processToolCalls c ed q (tc :: rest) = .ok (entries, bounds) →
      buildToolMessages (List.zip (tc :: rest) entries) = .ok toolMsgs →
      llm2 (manage_conversation_history enc h0 ⟨"user", q, none, none⟩ ++
        [⟨"assistant", content, none, none⟩] ++ toolMsgs) = .message s →
      chatbotTurn c ed enc llm1 llm2 true h0 q =
        (manage_conversation_history enc
          (manage_conversation_history enc h0 ⟨"user", q, none, none⟩)
          ⟨"assistant", truncate_for_history s, none, none⟩,
         .ok (.withTools ⟨s, responseMapType entries,
           entries.map (fun e => (e.function, e.arguments)), entries,
           bounds⟩))) := by
  refine ⟨?_, ?_, ?_⟩
  · intro c ed enc llm1 llm2 h0 q
    rfl
  · intro c ed enc llm1 llm2 h0 q e he
    simp only [chatbotTurn] at he ⊢
    rw [if_neg (by decide : ¬(true = false))] at he ⊢
    repeat' split at he
    all_goals simp_all
  · intro c ed enc llm1 llm2 h0 q content tc rest entries bounds toolMsgs s
      hl1 hproc hbuild hllm2
    simp only [chatbotTurn]
    rw [if_neg (by decide : ¬(true = false))]
    simp only [hl1, hproc, hbuild, hllm2]

/-- C1 (counterexample).  A turn aborted by malformed tool-call JSON leaves
the session history mutated: the user message appended at the start of the
turn (and the repaired-in system message) remain after the abort, so the
history is not the pre-turn history. -/
theorem c1_counterexample :
    chatbotTurn constCollabs (fun _ => none) (fun _ => 0)
        (fun _ => .reply "" [⟨"id1", "get_sdg_goal_data", none⟩])
        (fun _ => .message "done") true [] "hi" =
      ([SYSTEM_MESSAGE, ⟨"user", "hi", none, none⟩],
       .error .invalidJsonFormat) ∧
    [SYSTEM_MESSAGE, ⟨"user", "hi", none, none⟩] ≠ ([] : List Message) :=
  ⟨rfl, by simp⟩

/-- C1 (witness for the amended theorem at a concrete aborting input). -/
theorem c1_history_on_abort_witness :
    (chatbotTurn constCollabs (fun _ => none) (fun _ => 0)
        (fun _ => .reply "" [⟨"id1", "get_sdg_goal_data", none⟩])
        (fun _ => .message "done") true [] "hi").2 =
      .error .invalidJsonFormat ∧
    (chatbotTurn constCollabs (fun _ => none) (fun _ => 0)
        (fun _ => .reply "" [⟨"id1", "get_sdg_goal_data", none⟩])
        (fun _ => .message "done") true [] "hi").1 =
      manage_conversation_history (fun _ => 0) []
        ⟨"user", "hi", none, none⟩ :=
  ⟨rfl,
   c1_history_on_abort.2.1 constCollabs (fun _ => none) (fun _ => 0)
     (fun _ => .reply "" [⟨"id1", "get_sdg_goal_data", none⟩])
     (fun _ => .message "done") [] "hi" .invalidJsonFormat rfl⟩

end SdgMain

namespace SdgMain

theorem jLookup_removeKey_self (k : String) :
    ∀ l, jLookup k (removeKey k l) = none := by
  intro l
  induction l with
  | nil => rfl
  | cons kv t ih =>
    match kv with
    | (k', v) =>
      simp only [removeKey]
      by_cases hk : k' = k
      · rw [if_pos hk]; exact ih
      · rw [if_neg hk]
        simp only [jLookup]
        rw [if_neg hk]
        exact ih

theorem jLookup_removeKey_ne (k k' : String) (h : k' ≠ k) :
    ∀ l, jLookup k (removeKey k' l) = jLookup k l := by
  intro l
  induction l with
  | nil => rfl
  | cons kv t ih =>
    match kv with
    | (k0, v) =>
      simp only [removeKey, jLookup]
      by_cases hk : k0 = k'
      · rw [if_pos hk]
        rw [ih]
        rw [if_neg (by rw [hk]; exact h)]
      · rw [if_neg hk]
        simp only [jLookup]
        by_cases hk2 : k0 = k
        · rw [if_pos hk2, if_pos hk2]
        · rw [if_neg hk2, if_neg hk2]
          exact ih

theorem jLookup_setKey_ne (k k' : String) (h : k' ≠ k) (v : JValue) :
    ∀ l, jLookup k (setKey k' v l) = jLookup k l := by
  intro l
  induction l with
  | nil =>
    simp only [setKey, jLookup]
    rw [if_neg h]
  | cons kv t ih =>
    match kv with
    | (k0, v0) =>
      simp only [setKey, jLookup]
      by_cases hk : k0 = k'
      · rw [if_pos hk]
        simp only [jLookup]
        rw [if_neg h, if_neg (by rw [hk]; exact h)]
      · rw [if_neg hk]
        simp only [jLookup]
        by_cases hk2 : k0 = k
        · rw [if_pos hk2, if_pos hk2]
        · rw [if_neg hk2, if_neg hk2]
          exact ih

/-- The cleaned (LLM-facing) copy of a tool result never retains the
`boundary`/`boundary_data` keys. -/
theorem clean_result_no_boundary (r : JValue)
    (fs : List (String × JValue)) (hc : clean_result r = .ok (.obj fs)) :
    jLookup "boundary" fs = none ∧ jLookup "boundary_data" fs = none := by
  cases r with
  | null => simp [clean_result, pure, Except.pure] at hc
  | bool b => simp [clean_result, pure, Except.pure] at hc
  | num n => simp [clean_result, pure, Except.pure] at hc
  | str s => simp [clean_result, pure, Except.pure] at hc
  | arr xs => simp [clean_result, pure, Except.pure] at hc
  | obj fields0 =>
    have hFb : jLookup "boundary"
        (removeKey "boundary_data" (removeKey "boundary" fields0)) = none := by
      rw [jLookup_removeKey_ne _ _ (by decide)]
      exact jLookup_removeKey_self _ _
    have hFbd : jLookup "boundary_data"
        (removeKey "boundary_data" (removeKey "boundary" fields0)) = none :=
      jLookup_removeKey_self _ _
    simp only [clean_result] at hc
    split at hc
    · split at hc
      · split at hc
        · rename_i dataFields hdata hkeys
          cases hts : summarize3
              ((jLookup "top_performers" dataFields).getD .null) with
          | error e1 =>
            rw [hts] at hc
            simp [bind, Except.bind] at hc
          | ok ts =>
            rw [hts] at hc
            simp only [bind, Except.bind] at hc
            cases hbs : summarize3
                ((jLookup "bottom_performers" dataFields).getD .null) with
            | error e2 =>
              rw [hbs] at hc
              simp [bind, Except.bind] at hc
            | ok bs =>
              rw [hbs] at hc
              simp only [bind, Except.bind, pure, Except.pure,
                Except.ok.injEq, JValue.obj.injEq] at hc
              rw [← hc]
              constructor
              · rw [jLookup_removeKey_ne _ _ (by decide),
                  jLookup_setKey_ne _ _ (by decide)]
                exact hFb
              · rw [jLookup_removeKey_ne _ _ (by decide),
                  jLookup_setKey_ne _ _ (by decide)]
                exact hFbd
        · simp only [pure, Except.pure, Except.ok.injEq,
            JValue.obj.injEq] at hc
          rw [← hc]
          exact ⟨hFb, hFbd⟩
      · simp only [pure, Except.pure, Except.ok.injEq,
          JValue.obj.injEq] at hc
        rw [← hc]
        exact ⟨hFb, hFbd⟩
    · split at hc
      · split at hc
        · simp only [pure, Except.pure, Except.ok.injEq,
            JValue.obj.injEq] at hc
          rw [← hc]
          constructor
          · rw [jLookup_setKey_ne _ _ (by decide),
              jLookup_setKey_ne _ _ (by decide)]
            exact hFb
          · rw [jLookup_setKey_ne _ _ (by decide),
              jLookup_setKey_ne _ _ (by decide)]
            exact hFbd
        · simp only [pure, Except.pure, Except.ok.injEq,
            JValue.obj.injEq] at hc
          rw [← hc]
          exact ⟨hFb, hFbd⟩
      · simp only [pure, Except.pure, Except.ok.injEq,
          JValue.obj.injEq] at hc
        rw [← hc]
        exact ⟨hFb, hFbd⟩


/-! ### Claim C10: sanitization works on a copy; the response keeps originals -/

/-- C10.  Sanitization operates on a copy of each tool result: the cleaned
LLM-facing copy never retains the `boundary`/`boundary_data` keys, while the
turn's API response carries the original result mapping unchanged in its
`data` field (boundary keys and full data arrays intact) — only the tool
message serialized for the second model call uses the sanitized string. -/
theorem c10_sanitize_copy_frame :
    (∀ (r : JValue) (fs : List (String × JValue)),
      clean_result r = .ok (.obj fs) →
      jLookup "boundary" fs = none ∧ jLookup "boundary_data" fs = none) ∧
    (∀ (c : Collabs) (ed : String → Option String) (enc : String → Nat)
        (llm1 : List Message → LLM1Res) (llm2 : List Message → LLM2Res)
        (h0 : List Message) (q content id fname : String)
        (args r : JValue) (schars : List Char) (s : String),
      llm1 (manage_conversation_history enc h0 ⟨"user", q, none, none⟩) =
        .reply content [⟨id, fname, some args⟩] →
      execute_function_call c ed q fname args = .ok r →
      sanitize_result r = .ok schars →
      llm2 (manage_conversation_history enc h0 ⟨"user", q, none, none⟩ ++
        [⟨"assistant", content, none, none⟩] ++
        [⟨"tool", ⟨schars⟩, none, some id⟩]) = .message s →
      (chatbotTurn c ed enc llm1 llm2 true h0 q).2 =
        .ok (.withTools ⟨s, responseMapType [⟨fname, args, r⟩],
          [(fname, args)], [⟨fname, args, r⟩],
          collectBoundaries r []⟩)) := by
  constructor
  · exact clean_result_no_boundary
  · intro c ed enc llm1 llm2 h0 q content id fname args r schars s hl1
      hexec hsan hllm2
    have hproc : processToolCalls c ed q [⟨id, fname, some args⟩] =
        .ok ([⟨fname, args, r⟩], collectBoundaries r []) := by
      simp [processToolCalls, hexec]
    have hbuild : buildToolMessages
        (List.zip [(⟨id, fname, some args⟩ : ToolCallObj)]
          [(⟨fname, args, r⟩ : FunctionResultEntry)]) =
        .ok [⟨"tool", ⟨schars⟩, none, some id⟩] := by
      simp [buildToolMessages, List.zip, hsan]
    simp only [chatbotTurn]
    rw [if_neg (by decide : ¬(true = false))]
    simp only [hl1, hproc, hbuild, hllm2]
    simp

/-- C10 (witness): a result carrying `boundary`, `boundary_data`, `map_type`
and a data array: its cleaned copy drops the boundary keys, yet the turn's
response data still holds the original mapping. -/
theorem c10_sanitize_copy_frame_witness :
    (jLookup "boundary"
        [("map_type", JValue.str "m"), ("data", JValue.arr [JValue.num 1])] =
      none ∧
     jLookup "boundary_data"
        [("map_type", JValue.str "m"), ("data", JValue.arr [JValue.num 1])] =
      none) ∧
    (chatbotTurn collabsC10 (fun _ => none) (fun _ => 0)
        (fun _ => .reply "call"
          [⟨"id1", "get_sdg_goal_data", some (.obj [])⟩])
        (fun _ => .message "ok") true [] "hi").2 =
      .ok (.withTools ⟨"ok",
        responseMapType [⟨"get_sdg_goal_data", .obj [], r0C10⟩],
        [("get_sdg_goal_data", .obj [])],
        [⟨"get_sdg_goal_data", .obj [], r0C10⟩],
        collectBoundaries r0C10 []⟩) :=
  ⟨c10_sanitize_copy_frame.1 r0C10
     [("map_type", JValue.str "m"), ("data", JValue.arr [JValue.num 1])]
     (by simp +decide [r0C10, clean_result, removeKey, jLookup, hasKeyC,
       pure, Except.pure]),
   c10_sanitize_copy_frame.2 collabsC10 (fun _ => none) (fun _ => 0)
     (fun _ => .reply "call" [⟨"id1", "get_sdg_goal_data", some (.obj [])⟩])
     (fun _ => .message "ok") [] "hi" "call" "id1" "get_sdg_goal_data"
     (.obj []) r0C10
     "\x7b\"map_type\": \"m\", \"data\": [1]\x7d".data "ok" rfl rfl
     (by simp +decide [r0C10, sanitize_result, clean_result, removeKey,
       jLookup, hasKeyC, result_string, apply_size_cap, jdumpC, jdumpObjC,
       jdumpArrC, escapeC, escChar, lbraceC, rbraceC, pure, Except.pure,
       bind, Except.bind])
     rfl⟩

end SdgMain

namespace SdgMain

/-! ### String-search lemmas for the size-cap analysis -/

theorem isPrefixOfC_iff :
    ∀ (p s : List Char), isPrefixOfC p s = true ↔ ∃ t, s = p ++ t := by
  intro p
  induction p with
  | nil =>
    intro s
    simp [isPrefixOfC]
  | cons c cs ih =>
    intro s
    cases s with
    | nil =>
      simp [isPrefixOfC]
    | cons d ds =>
      simp only [isPrefixOfC, Bool.and_eq_true, decide_eq_true_eq, ih,
        List.cons_append]
      constructor
      · rintro ⟨hcd, t, ht⟩
        subst hcd
        subst ht
        exact ⟨t, rfl⟩
      · rintro ⟨t, ht⟩
        injection ht with h1 h2
        subst h1
        exact ⟨rfl, t, h2⟩

theorem isPrefixOfC_self_append (p t : List Char) :
    isPrefixOfC p (p ++ t) = true :=
  (isPrefixOfC_iff p (p ++ t)).mpr ⟨t, rfl⟩

theorem findIdxC_nil (sep : List Char) :
    findIdxC sep [] = if isPrefixOfC sep [] = true then some 0 else none :=
  rfl

theorem findIdxC_cons (sep : List Char) (c : Char) (t : List Char) :
    findIdxC sep (c :: t) =
      if isPrefixOfC sep (c :: t) = true then some 0
      else (findIdxC sep t).map (· + 1) := rfl

theorem findIdxC_cons_none (sep : List Char) (c : Char) (t : List Char)
    (h : findIdxC sep (c :: t) = none) :
    isPrefixOfC sep (c :: t) = false ∧ findIdxC sep t = none := by
  rw [findIdxC_cons] at h
  by_cases hp : isPrefixOfC sep (c :: t) = true
  · rw [if_pos hp] at h
    cases h
  · rw [if_neg hp] at h
    exact ⟨Bool.eq_false_iff.mpr hp, Option.map_eq_none'.mp h⟩

theorem findIdxC_of_self (sep b : List Char) (hne : sep ≠ []) :
    findIdxC sep (sep ++ b) = some 0 := by
  match sep, hne with
  | c :: cs, _ =>
    rw [show (c :: cs) ++ b = c :: (cs ++ b) from rfl, findIdxC_cons,
      if_pos (show isPrefixOfC (c :: cs) (c :: (cs ++ b)) = true from
        isPrefixOfC_self_append (c :: cs) b)]

/-- No occurrence of `sep` in `a` and no nontrivial border of `sep`: the
first occurrence of `sep` in `a ++ sep ++ b` is exactly at index
`a.length`. -/
theorem findIdxC_append_sep (sep b : List Char) (hne : sep ≠ [])
    (hnb : noBorderC sep) :
    ∀ a, findIdxC sep a = none →
      findIdxC sep (a ++ (sep ++ b)) = some a.length := by
  intro a
  induction a with
  | nil =>
    intro _
    simpa using findIdxC_of_self sep b hne
  | cons c a' ih =>
    intro ha
    obtain ⟨hpre, ha'⟩ := findIdxC_cons_none sep c a' ha
    have hnpre : isPrefixOfC sep ((c :: a') ++ (sep ++ b)) = false := by
      cases hb : isPrefixOfC sep ((c :: a') ++ (sep ++ b)) with
      | false => rfl
      | true =>
        exfalso
        obtain ⟨t, ht⟩ := (isPrefixOfC_iff _ _).mp hb
        by_cases hle : sep.length ≤ (c :: a').length
        · have hsep : sep = (c :: a').take sep.length := by
            have h1 : ((c :: a') ++ (sep ++ b)).take sep.length =
                (c :: a').take sep.length :=
              List.take_append_of_le_length hle
            rw [ht, List.take_left] at h1
            exact h1
          have hpt : isPrefixOfC sep (c :: a') = true := by
            rw [isPrefixOfC_iff]
            refine ⟨(c :: a').drop sep.length, ?_⟩
            conv_lhs => rw [← List.take_append_drop sep.length (c :: a')]
            rw [← hsep]
          rw [hpt] at hpre
          cases hpre
        · push_neg at hle
          have h1 : ((c :: a') ++ (sep ++ b)).take sep.length =
              (c :: a') ++ (sep ++ b).take (sep.length - (c :: a').length) := by
            rw [List.take_append_eq_append_take,
              List.take_of_length_le (le_of_lt hle)]
          have h2 : (sep ++ b).take (sep.length - (c :: a').length) =
              sep.take (sep.length - (c :: a').length) :=
            List.take_append_of_le_length (by omega)
          have hsep : sep =
              (c :: a') ++ sep.take (sep.length - (c :: a').length) := by
            rw [← h2, ← h1, ht, List.take_left]
          have hdrop : sep.drop (c :: a').length =
              sep.take (sep.length - (c :: a').length) := by
            conv_lhs => rw [hsep]
            rw [List.drop_left]
          exact hnb (c :: a').length hle (by simp) hdrop
    have hnpre' : isPrefixOfC sep (c :: (a' ++ (sep ++ b))) = false := hnpre
    rw [show (c :: a') ++ (sep ++ b) = c :: (a' ++ (sep ++ b)) from rfl,
      findIdxC_cons, if_neg (by simp [hnpre']), ih ha']
    simp

theorem splitOnceC_append_sep (sep a b : List Char) (hne : sep ≠ [])
    (hnb : noBorderC sep) (ha : findIdxC sep a = none) :
    splitOnceC sep (a ++ (sep ++ b)) = (a, some b) := by
  unfold splitOnceC
  rw [findIdxC_append_sep sep b hne hnb a ha]
  dsimp only
  rw [List.take_left]
  rw [show a ++ (sep ++ b) = (a ++ sep) ++ b from by simp,
    show a.length + sep.length = (a ++ sep).length from by simp,
    List.drop_left]

theorem containsSubC_parts (p x y : List Char) :
    containsSubC p (x ++ (p ++ y)) = true := by
  induction x with
  | nil =>
    simp only [List.nil_append, containsSubC]
    cases hp : p with
    | nil =>
      subst hp
      simp only [List.nil_append]
      cases y with
      | nil => rfl
      | cons d ds =>
        rw [findIdxC_cons, if_pos (by simp [isPrefixOfC])]
        rfl
    | cons c cs =>
      rw [← hp, findIdxC_of_self p y (by rw [hp]; simp)]
      rfl
  | cons c x' ih =>
    simp only [containsSubC] at ih ⊢
    rw [show (c :: x') ++ (p ++ y) = c :: (x' ++ (p ++ y)) from rfl,
      findIdxC_cons]
    by_cases hp : isPrefixOfC p (c :: (x' ++ (p ++ y))) = true
    · rw [if_pos hp]
      rfl
    · rw [if_neg hp]
      cases hf : findIdxC p (x' ++ (p ++ y)) with
      | none => rw [hf] at ih; cases ih
      | some i => simp

theorem findIdxC_decomp (p : List Char) :
    ∀ (s : List Char) (i : Nat), findIdxC p s = some i →
      s = s.take i ++ (p ++ s.drop (i + p.length)) := by
  intro s
  induction s with
  | nil =>
    intro i h
    rw [findIdxC_nil] at h
    by_cases hp : isPrefixOfC p [] = true
    · rw [if_pos hp] at h
      cases h
      obtain ⟨u, hu⟩ := (isPrefixOfC_iff _ _).mp hp
      rcases List.append_eq_nil.mp hu.symm with ⟨hp0, hu0⟩
      subst hp0
      simp
    · rw [if_neg hp] at h
      cases h
  | cons c t ih =>
    intro i h
    rw [findIdxC_cons] at h
    by_cases hp : isPrefixOfC p (c :: t) = true
    · rw [if_pos hp] at h
      cases h
      obtain ⟨u, hu⟩ := (isPrefixOfC_iff _ _).mp hp
      simp only [List.take_zero, List.nil_append, Nat.zero_add]
      conv_lhs => rw [hu]
      rw [hu, List.drop_left]
    · rw [if_neg hp] at h
      cases hf : findIdxC p t with
      | none => rw [hf] at h; cases h
      | some j =>
        rw [hf] at h
        simp only [Option.map_some'] at h
        cases h
        have ht := ih j hf
        calc c :: t = c :: (t.take j ++ (p ++ t.drop (j + p.length))) := by
              rw [← ht]
          _ = (c :: t).take (j + 1) ++
                (p ++ (c :: t).drop (j + 1 + p.length)) := by
              rw [List.take_succ_cons,
                show j + 1 + p.length = (j + p.length) + 1 from by omega,
                List.drop_succ_cons]
              simp

theorem count_le_of_containsSubC (p s : List Char)
    (h : containsSubC p s = true) (ch : Char) :
    p.count ch ≤ s.count ch := by
  unfold containsSubC at h
  cases hf : findIdxC p s with
  | none => rw [hf] at h; cases h
  | some i =>
    have hdec := findIdxC_decomp p s i hf
    conv_rhs => rw [hdec]
    simp [List.count_append]
    omega

theorem escapeC_replicate_b (n : Nat) :
    escapeC (List.replicate n 'b') = List.replicate n 'b' := by
  induction n with
  | zero => rfl
  | succ m ih =>
    rw [List.replicate_succ, escapeC, ih]
    rfl

end SdgMain

namespace SdgMain

theorem findIdxC_eq_none_of_not_contains (p s : List Char)
    (h : containsSubC p s = false) : findIdxC p s = none := by
  unfold containsSubC at h
  cases hf : findIdxC p s with
  | none => rfl
  | some i => rw [hf] at h; cases h

theorem noBorder_other_data : noBorderC ("OTHER_DATA:".data) := by decide

/-- The hard size cap on an oversized two-block string whose
`ENHANCED_ANALYSIS` block does not contain the `OTHER_DATA:` marker: the
analysis block survives intact and the other block is cut to its first 1000
characters plus a marker. -/
theorem apply_size_cap_with_marker (ea rest : List Char)
    (hnoc : findIdxC "OTHER_DATA:".data
      ("ENHANCED_ANALYSIS: ".data ++ (ea ++ "\n\n".data)) = none)
    (hlen : 4000 <
      (("ENHANCED_ANALYSIS: ".data ++ (ea ++ "\n\n".data)) ++
        ("OTHER_DATA:".data ++ (' ' :: rest))).length) :
    apply_size_cap
        (("ENHANCED_ANALYSIS: ".data ++ (ea ++ "\n\n".data)) ++
          ("OTHER_DATA:".data ++ (' ' :: rest))) =
      ("ENHANCED_ANALYSIS: ".data ++ (ea ++ "\n\n".data)) ++
        ("OTHER_DATA:".data ++
          ((' ' :: rest).take 1000 ++ "... [Other data truncated]".data)) := by
  have hcont : containsSubC "ENHANCED_ANALYSIS:".data
      (("ENHANCED_ANALYSIS: ".data ++ (ea ++ "\n\n".data)) ++
        ("OTHER_DATA:".data ++ (' ' :: rest))) = true := by
    have hpre : ("ENHANCED_ANALYSIS: ".data : List Char) =
        "ENHANCED_ANALYSIS:".data ++ [' '] := by decide
    have h2 := containsSubC_parts "ENHANCED_ANALYSIS:".data []
      (' ' :: ((ea ++ "\n\n".data) ++ ("OTHER_DATA:".data ++ (' ' :: rest))))
    simp only [List.nil_append] at h2
    rw [hpre]
    simpa [List.append_assoc] using h2
  have hsplit := splitOnceC_append_sep "OTHER_DATA:".data
    ("ENHANCED_ANALYSIS: ".data ++ (ea ++ "\n\n".data)) (' ' :: rest)
    (by decide) noBorder_other_data hnoc
  unfold apply_size_cap
  rw [if_pos hlen, hcont, if_pos rfl, hsplit]

/-- The hard size cap on an oversized string without the
`ENHANCED_ANALYSIS:` marker: the whole string is cut to 3800 characters plus
a marker. -/
theorem apply_size_cap_no_marker (s : List Char)
    (hnom : containsSubC "ENHANCED_ANALYSIS:".data s = false)
    (hlen : 4000 < s.length) :
    apply_size_cap s =
      s.take 3800 ++ "... [Result truncated for token limit]".data := by
  unfold apply_size_cap
  rw [if_pos hlen, hnom, if_neg (by simp)]

theorem result_string_with_ea (f : List (String × JValue)) (ea : String)
    (hk : jLookup "enhanced_analysis" f = some (.str ea)) :
    result_string (.obj f) =
      "ENHANCED_ANALYSIS: ".data ++ (ea.data ++ ("\n\nOTHER_DATA: ".data ++
        jdumpC (.obj (removeKey "enhanced_analysis" f)))) := by
  simp [result_string, hasKeyC, hk, pyStrC]

theorem sanitize_result_eq (r cres : JValue)
    (hc : clean_result r = .ok cres) :
    sanitize_result r = .ok (apply_size_cap (result_string cres)) := by
  simp [sanitize_result, hc, bind, Except.bind, pure, Except.pure]

theorem c4_with_marker_case (r : JValue) (f : List (String × JValue))
    (ea : String)
    (hc : clean_result r = .ok (.obj f))
    (hk : jLookup "enhanced_analysis" f = some (.str ea))
    (hnoc : containsSubC "OTHER_DATA:".data
      ("ENHANCED_ANALYSIS: ".data ++ (ea.data ++ "\n\n".data)) = false)
    (hlen : 4000 < (result_string (.obj f)).length) :
    sanitize_result r = .ok
      (("ENHANCED_ANALYSIS: ".data ++ (ea.data ++ "\n\n".data)) ++
        ("OTHER_DATA:".data ++
          ((' ' :: jdumpC (.obj (removeKey "enhanced_analysis" f))).take
              1000 ++
            "... [Other data truncated]".data))) ∧
    containsSubC ea.data
      (("ENHANCED_ANALYSIS: ".data ++ (ea.data ++ "\n\n".data)) ++
        ("OTHER_DATA:".data ++
          ((' ' :: jdumpC (.obj (removeKey "enhanced_analysis" f))).take
              1000 ++
            "... [Other data truncated]".data))) = true := by
  have hform : result_string (.obj f) =
      ("ENHANCED_ANALYSIS: ".data ++ (ea.data ++ "\n\n".data)) ++
        ("OTHER_DATA:".data ++
          (' ' :: jdumpC (.obj (removeKey "enhanced_analysis" f)))) := by
    rw [result_string_with_ea f ea hk]
    have hsep : ("\n\nOTHER_DATA: ".data : List Char) =
        "\n\n".data ++ ("OTHER_DATA:".data ++ [' ']) := by decide
    rw [hsep]
    simp [List.append_assoc]
  have hlen2 : 4000 <
      ((("ENHANCED_ANALYSIS: ".data ++ (ea.data ++ "\n\n".data)) ++
        ("OTHER_DATA:".data ++
          (' ' :: jdumpC (.obj (removeKey "enhanced_analysis" f)))))).length := by
    rw [← hform]
    exact hlen
  constructor
  · rw [sanitize_result_eq r (.obj f) hc, hform]
    rw [apply_size_cap_with_marker ea.data
      (jdumpC (.obj (removeKey "enhanced_analysis" f)))
      (findIdxC_eq_none_of_not_contains _ _ hnoc) hlen2]
  · have h2 := containsSubC_parts ea.data "ENHANCED_ANALYSIS: ".data
      ("\n\n".data ++ ("OTHER_DATA:".data ++
        ((' ' :: jdumpC (.obj (removeKey "enhanced_analysis" f))).take
            1000 ++
          "... [Other data truncated]".data)))
    simpa [List.append_assoc] using h2

theorem c4_no_marker_case (r cres : JValue)
    (hc : clean_result r = .ok cres)
    (hnom : containsSubC "ENHANCED_ANALYSIS:".data (result_string cres) =
      false)
    (hlen : 4000 < (result_string cres).length) :
    sanitize_result r = .ok ((result_string cres).take 3800 ++
      "... [Result truncated for token limit]".data) := by
  rw [sanitize_result_eq r cres hc, apply_size_cap_no_marker _ hnom hlen]

end SdgMain

namespace SdgMain

theorem data_mk (l : List Char) : (String.mk l).data = l := rfl

theorem jdumpC_str (s : String) :
    jdumpC (.str s) = '"' :: (escapeC s.data ++ ['"']) := by
  simp only [jdumpC]

theorem jdumpC_obj_single (k : String) (v : JValue) :
    jdumpC (.obj [(k, v)]) =
      lbraceC :: ((jdumpC (.str k) ++ (':' :: ' ' :: jdumpC v)) ++
        [rbraceC]) := by
  simp only [jdumpC, jdumpObjC]

theorem escapeC_data_lit : escapeC "data".data = "data".data := by decide

theorem c4_ce_clean : clean_result rC4 = .ok (.obj fieldsC4) := by
  simp +decide [rC4, fieldsC4, clean_result, removeKey, jLookup, hasKeyC,
    pure, Except.pure]

theorem c4_ce_removeKey : removeKey "enhanced_analysis" fieldsC4 =
    [("data", .str (String.mk (List.replicate 3000 'b')))] := by
  simp +decide [fieldsC4, removeKey]

theorem c4_ce_jdump_length :
    (jdumpC (.obj (removeKey "enhanced_analysis" fieldsC4))).length =
      3012 := by
  rw [c4_ce_removeKey, jdumpC_obj_single, jdumpC_str, jdumpC_str, data_mk,
    escapeC_replicate_b, escapeC_data_lit]
  simp only [List.length_cons, List.length_append, List.length_replicate,
    List.length_singleton, List.length_nil,
    show ("data".data).length = 4 from by decide]

theorem c4_ce_result_string : result_string (.obj fieldsC4) =
    "ENHANCED_ANALYSIS: ".data ++ (eaC4 ++ ("\n\nOTHER_DATA: ".data ++
      jdumpC (.obj (removeKey "enhanced_analysis" fieldsC4)))) := by
  have h0 := result_string_with_ea fieldsC4 (String.mk eaC4)
    (by simp +decide [fieldsC4, jLookup])
  rw [data_mk] at h0
  exact h0

theorem c4_ce_length_aux (z : List Char) (hz : z.length = 3012) :
    4000 < ("ENHANCED_ANALYSIS: ".data ++ (eaC4 ++
      ("\n\nOTHER_DATA: ".data ++ z))).length := by
  simp only [List.length_append, hz, eaC4, List.length_replicate,
    show ("ENHANCED_ANALYSIS: ".data).length = 19 from by decide,
    show ("\n\nOTHER_DATA: ".data).length = 14 from by decide,
    show ("OTHER_DATA:".data).length = 11 from by decide]
  omega

theorem c4_ce_assoc (z : List Char) :
    "ENHANCED_ANALYSIS: ".data ++ (eaC4 ++ ("\n\nOTHER_DATA: ".data ++ z)) =
      "ENHANCED_ANALYSIS: ".data ++ ("OTHER_DATA:".data ++
        (List.replicate 1200 'a' ++ ("\n\nOTHER_DATA: ".data ++ z))) := by
  rw [show eaC4 = "OTHER_DATA:".data ++ List.replicate 1200 'a' from rfl]
  simp only [List.append_assoc]

theorem c4_ce_core (z : List Char) (hz : z.length = 3012) :
    apply_size_cap ("ENHANCED_ANALYSIS: ".data ++ ("OTHER_DATA:".data ++
      (List.replicate 1200 'a' ++ ("\n\nOTHER_DATA: ".data ++ z)))) =
      outC4 := by
  have hlen2 : 4000 < ("ENHANCED_ANALYSIS: ".data ++ ("OTHER_DATA:".data ++
      (List.replicate 1200 'a' ++
        ("\n\nOTHER_DATA: ".data ++ z)))).length := by
    rw [← c4_ce_assoc z]
    exact c4_ce_length_aux z hz
  have hcont : containsSubC "ENHANCED_ANALYSIS:".data
      ("ENHANCED_ANALYSIS: ".data ++ ("OTHER_DATA:".data ++
        (List.replicate 1200 'a' ++ ("\n\nOTHER_DATA: ".data ++ z)))) =
        true := by
    have h2 := containsSubC_parts "ENHANCED_ANALYSIS:".data []
      (' ' :: ("OTHER_DATA:".data ++ (List.replicate 1200 'a' ++
        ("\n\nOTHER_DATA: ".data ++ z))))
    simp only [List.nil_append] at h2
    rw [show ("ENHANCED_ANALYSIS: ".data : List Char) =
      "ENHANCED_ANALYSIS:".data ++ [' '] from by decide]
    simp only [List.append_assoc, List.singleton_append]
    exact h2
  have hsplit := splitOnceC_append_sep "OTHER_DATA:".data
    "ENHANCED_ANALYSIS: ".data
    (List.replicate 1200 'a' ++ ("\n\nOTHER_DATA: ".data ++ z))
    (by decide) noBorder_other_data (by decide)
  unfold apply_size_cap
  rw [if_pos hlen2, hcont, if_pos rfl, hsplit]
  dsimp only
  rw [List.take_append_eq_append_take]
  simp only [List.take_replicate, List.length_replicate,
    show min 1000 1200 = 1000 from by norm_num,
    show (1000 - 1200 : Nat) = 0 from rfl, List.take_zero,
    List.append_nil]
  rw [show outC4 = "ENHANCED_ANALYSIS: ".data ++ ("OTHER_DATA:".data ++
    (List.replicate 1000 'a' ++ "... [Other data truncated]".data))
    from rfl]

/-- C4 (counterexample).  A tool result whose `enhanced_analysis` text
itself contains the `OTHER_DATA:` marker followed by 1200 characters: the
serialized string exceeds 4000 characters, and the string sent to the model
does NOT contain the full analysis text verbatim — the split at the first
`OTHER_DATA:` occurrence cuts the analysis down to 1000 of those 1200
characters. -/
theorem c4_counterexample :
    4000 < (result_string (.obj fieldsC4)).length ∧
    sanitize_result rC4 = .ok outC4 ∧
    containsSubC eaC4 outC4 = false := by
  refine ⟨?_, ?_, ?_⟩
  · rw [c4_ce_result_string]
    exact c4_ce_length_aux _ c4_ce_jdump_length
  · rw [sanitize_result_eq rC4 (.obj fieldsC4) c4_ce_clean,
      c4_ce_result_string, c4_ce_assoc]
    exact congrArg Except.ok (c4_ce_core _ c4_ce_jdump_length)
  · by_contra hcc
    have htrue : containsSubC eaC4 outC4 = true := by
      cases hb : containsSubC eaC4 outC4 with
      | false => exact absurd hb hcc
      | true => rfl
    have hle := count_le_of_containsSubC eaC4 outC4 htrue 'a'
    rw [show eaC4 = "OTHER_DATA:".data ++ List.replicate 1200 'a' from rfl,
      show outC4 = "ENHANCED_ANALYSIS: ".data ++ ("OTHER_DATA:".data ++
        (List.replicate 1000 'a' ++ "... [Other data truncated]".data))
        from rfl] at hle
    simp only [List.count_append, List.count_replicate, beq_self_eq_true,
      if_true,
      show List.count 'a' "OTHER_DATA:".data = 0 from by decide,
      show List.count 'a' "ENHANCED_ANALYSIS: ".data = 0 from by decide,
      show List.count 'a' "... [Other data truncated]".data = 3 from by
        decide] at hle
    omega

end SdgMain

namespace SdgMain

/-! ### Claim C4: sanitizer narrative priority (amended) -/

/-- C4 (amended).  For every tool result whose cleaned copy carries an
`enhanced_analysis` string that does not itself contain the `OTHER_DATA:`
marker, when the serialized string exceeds 4000 characters the string sent
to the LLM still contains the full analysis text verbatim and only the
OTHER_DATA block is cut to its first 1000 characters plus a marker; a
serialized result over 4000 characters without the `ENHANCED_ANALYSIS:`
marker is truncated as a whole to 3800 characters plus a marker.  (The
restriction on the analysis text is forced: an analysis containing the
marker is split inside itself, see `c4_counterexample`.) -/
theorem c4_sanitizer_narrative_priority :
    (∀ (r : JValue) (f : List (String × JValue)) (ea : String),
      clean_result r = .ok (.obj f) →
      jLookup "enhanced_analysis" f = some (.str ea) →
      containsSubC "OTHER_DATA:".data
        ("ENHANCED_ANALYSIS: ".data ++ (ea.data ++ "\n\n".data)) = false →
      4000 < (result_string (.obj f)).length →
      sanitize_result r = .ok
        (("ENHANCED_ANALYSIS: ".data ++ (ea.data ++ "\n\n".data)) ++
          ("OTHER_DATA:".data ++
            ((' ' :: jdumpC (.obj (removeKey "enhanced_analysis" f))).take
                1000 ++
              "... [Other data truncated]".data))) ∧
      containsSubC ea.data
        (("ENHANCED_ANALYSIS: ".data ++ (ea.data ++ "\n\n".data)) ++
          ("OTHER_DATA:".data ++
            ((' ' :: jdumpC (.obj (removeKey "enhanced_analysis" f))).take
                1000 ++
              "... [Other data truncated]".data))) = true) ∧
    (∀ (r cres : JValue),
      clean_result r = .ok cres →
      containsSubC "ENHANCED_ANALYSIS:".data (result_string cres) = false →
      4000 < (result_string cres).length →
      sanitize_result r = .ok ((result_string cres).take 3800 ++
        "... [Result truncated for token limit]".data)) :=
  ⟨c4_with_marker_case, c4_no_marker_case⟩

theorem c4_w_clean : clean_result rW4 = .ok (.obj fieldsW4) := by
  simp +decide [rW4, fieldsW4, clean_result, removeKey, jLookup, hasKeyC,
    pure, Except.pure]

theorem c4_w_removeKey : removeKey "enhanced_analysis" fieldsW4 =
    [("data", .str (String.mk (List.replicate 4000 'b')))] := by
  simp +decide [fieldsW4, removeKey]

theorem c4_w_jdump_length :
    (jdumpC (.obj (removeKey "enhanced_analysis" fieldsW4))).length =
      4012 := by
  rw [c4_w_removeKey, jdumpC_obj_single, jdumpC_str, jdumpC_str, data_mk,
    escapeC_replicate_b, escapeC_data_lit]
  simp only [List.length_cons, List.length_append, List.length_replicate,
    List.length_singleton, List.length_nil,
    show ("data".data).length = 4 from by decide]

theorem c4_w_length_aux (z : List Char) (hz : z.length = 4012) :
    4000 < ("ENHANCED_ANALYSIS: ".data ++ ("abc".data ++
      ("\n\nOTHER_DATA: ".data ++ z))).length := by
  simp only [List.length_append, hz,
    show ("ENHANCED_ANALYSIS: ".data).length = 19 from by decide,
    show ("abc".data).length = 3 from by decide,
    show ("\n\nOTHER_DATA: ".data).length = 14 from by decide]
  omega

theorem c4_w_length : 4000 < (result_string (.obj fieldsW4)).length := by
  rw [result_string_with_ea fieldsW4 "abc"
    (by simp +decide [fieldsW4, jLookup])]
  exact c4_w_length_aux _ c4_w_jdump_length

/-- C4 (witness for the amended theorem at a concrete oversized input). -/
theorem c4_sanitizer_narrative_priority_witness :
    sanitize_result rW4 = .ok
      (("ENHANCED_ANALYSIS: ".data ++ ("abc".data ++ "\n\n".data)) ++
        ("OTHER_DATA:".data ++
          ((' ' :: jdumpC (.obj (removeKey "enhanced_analysis"
              fieldsW4))).take 1000 ++
            "... [Other data truncated]".data))) ∧
    containsSubC "abc".data
      (("ENHANCED_ANALYSIS: ".data ++ ("abc".data ++ "\n\n".data)) ++
        ("OTHER_DATA:".data ++
          ((' ' :: jdumpC (.obj (removeKey "enhanced_analysis"
              fieldsW4))).take 1000 ++
            "... [Other data truncated]".data))) = true :=
  c4_sanitizer_narrative_priority.1 rW4 fieldsW4 "abc" c4_w_clean rfl
    (by decide) c4_w_length

end SdgMain
